import Mathlib

/-!
Formal model of the transport-order XML generation and validation pipeline
(`src/tools` of the repository), with theorems checking the natural-language
specification against the code.

The Python modules are shallowly embedded:

* `xml.etree.ElementTree` elements become the inductive type `Elem`
  (tag, attributes, text, children).  Namespaced tags are stored the way
  ElementTree stores them, as the literal string "\x7buri\x7dname".
* validator result dictionaries become the structure `VR`
  (`is_valid`, `errors`, `warnings`); every `result["errors"].append(m)` /
  `result["is_valid"] = False` pair in the source becomes `VR.addError`,
  every `result["warnings"].append(m)` becomes `VR.addWarning`.
* Python truthiness of an `Element` (true iff it has children) is modelled
  by `elemTruthy`; the `find(a) or find(b)` idiom by `pyOrElem` and
  `findall(a) or findall(b)` by `pyOrList`.
* `re.match` of the concrete anchored patterns appearing in the source is
  implemented directly on character lists; following Python semantics the
  final `$` also matches just before a single trailing newline.
-/

namespace TransportOrder

/-- An ElementTree element: tag, attributes, text (text is `none` when the
element has no text node, mirroring `element.text is None`), children. -/
inductive Elem : Type where
  | mk : String → List (String × String) → Option String → List Elem → Elem

def Elem.tag : Elem → String
  | .mk t _ _ _ => t

def Elem.attrs : Elem → List (String × String)
  | .mk _ a _ _ => a

def Elem.text : Elem → Option String
  | .mk _ _ x _ => x

def Elem.children : Elem → List Elem
  | .mk _ _ _ c => c

/-- `element.get(key)` on attributes. -/
def Elem.attr (e : Elem) (key : String) : Option String :=
  match e.attrs.find? (fun p => p.1 = key) with
  | some p => some p.2
  | none => none

/-- `parent.find(tag)`: first direct child with the given tag. -/
def Elem.findChild (e : Elem) (tag : String) : Option Elem :=
  e.children.find? (fun c => c.tag = tag)

/-- `parent.findall(tag)`: all direct children with the given tag. -/
def Elem.findAll (e : Elem) (tag : String) : List Elem :=
  e.children.filter (fun c => c.tag = tag)

/-- `root.find(".//tag")`: first strict descendant with the given tag,
in document order. -/
def findDescL (tag : String) : List Elem → Option Elem
  | [] => none
  | Elem.mk t a x cs :: rest =>
    if t = tag then some (Elem.mk t a x cs)
    else
      match findDescL tag cs with
      | some r => some r
      | none => findDescL tag rest

def Elem.findDesc (e : Elem) (tag : String) : Option Elem :=
  findDescL tag e.children

/-- Python truthiness of an `Element`: true iff it has children. -/
def elemTruthy : Option Elem → Bool
  | none => false
  | some e => !e.children.isEmpty

/-- `find(a) or find(b)`: the left result unless it is `None` or an
element with no children (falsy), in which case the right result. -/
def pyOrElem (a b : Option Elem) : Option Elem :=
  if elemTruthy a then a else b

/-- `findall(a) or findall(b)`: the left list unless empty. -/
def pyOrList (a b : List Elem) : List Elem :=
  if a.isEmpty then b else a

/-- `find(a)` followed by `if element is None: element = find(b)`
(a `None` check, not Python truthiness). -/
def orIfNone (a b : Option Elem) : Option Elem :=
  match a with
  | some e => some e
  | none => b

/-- Truthiness of `element.text` (`None` and the empty string are falsy). -/
def textTruthy : Option String → Bool
  | none => false
  | some s => !s.isEmpty

/-- A validation result dictionary: `is_valid`, `errors`, `warnings`. -/
structure VR where
  is_valid : Bool
  errors : List String
  warnings : List String
  deriving Repr, DecidableEq

/-- The initial result `{"is_valid": True, "errors": [], "warnings": []}`. -/
def VR.init : VR := ⟨true, [], []⟩

/-- `result["errors"].append(m); result["is_valid"] = False` -/
def VR.addError (r : VR) (m : String) : VR :=
  ⟨false, r.errors ++ [m], r.warnings⟩

/-- `result["warnings"].append(m)` -/
def VR.addWarning (r : VR) (m : String) : VR :=
  ⟨r.is_valid, r.errors, r.warnings ++ [m]⟩

/-- The `ValidationResult` invariant claimed by the spec:
`is_valid` is true iff the error list is empty. -/
def VR.Inv (r : VR) : Prop := r.is_valid = r.errors.isEmpty

/-! ## Concrete regular expressions

Each `re.match` on a concrete anchored pattern in the source is implemented
directly.  All quantifiers in those patterns are over character classes that
exclude the following literal, so matching is deterministic.  Following
Python, the final `$` matches at the end of the string or just before a
single newline that ends the string. -/

/-- Python `$` (non-MULTILINE): end of input, or just before a final newline. -/
def pyDollar (l : List Char) : Bool :=
  l = [] || l = ['\n']

/-- Consume exactly `n` ASCII digits (`\d{n}`). -/
def chompDigits : Nat → List Char → Option (List Char)
  | 0, l => some l
  | _ + 1, [] => none
  | n + 1, c :: l => if c.isDigit then chompDigits n l else none

/-- Consume one expected literal character. -/
def chompChar (c : Char) : List Char → Option (List Char)
  | [] => none
  | d :: l => if d = c then some l else none

/-- `re.match(r'^[A-Z]\x7b2\x7d$', s)` (country codes). -/
def countryMatch (s : String) : Bool :=
  match s.data with
  | a :: b :: rest => a.isUpper && b.isUpper && pyDollar rest
  | _ => false

/-- `re.match(r'^[A-Z0-9]\x7b4\x7d$', s)` (SCAC codes). -/
def scacMatch (s : String) : Bool :=
  match s.data with
  | a :: b :: c :: d :: rest =>
    (a.isUpper || a.isDigit) && (b.isUpper || b.isDigit) &&
      (c.isUpper || c.isDigit) && (d.isUpper || d.isDigit) && pyDollar rest
  | _ => false

/-- The timezone alternative `([+-]\d\x7b2\x7d:\d\x7b2\x7d|Z)` followed by `$`. -/
def tzMatch : List Char → Bool
  | 'Z' :: rest => pyDollar rest
  | c :: rest =>
    if c = '+' || c = '-' then
      match chompDigits 2 rest with
      | none => false
      | some l1 =>
        match chompChar ':' l1 with
        | none => false
        | some l2 =>
          match chompDigits 2 l2 with
          | none => false
          | some l3 => pyDollar l3
    else false
  | [] => false

/-- `re.match` of the ISO datetime pattern
`^\d\x7b4\x7d-\d\x7b2\x7d-\d\x7b2\x7dT\d\x7b2\x7d:\d\x7b2\x7d:\d\x7b2\x7d([+-]\d\x7b2\x7d:\d\x7b2\x7d|Z)$`. -/
def isoDatetimeMatch (s : String) : Bool :=
  match chompDigits 4 s.data with
  | none => false
  | some l1 =>
    match chompChar '-' l1 with
    | none => false
    | some l2 =>
      match chompDigits 2 l2 with
      | none => false
      | some l3 =>
        match chompChar '-' l3 with
        | none => false
        | some l4 =>
          match chompDigits 2 l4 with
          | none => false
          | some l5 =>
            match chompChar 'T' l5 with
            | none => false
            | some l6 =>
              match chompDigits 2 l6 with
              | none => false
              | some l7 =>
                match chompChar ':' l7 with
                | none => false
                | some l8 =>
                  match chompDigits 2 l8 with
                  | none => false
                  | some l9 =>
                    match chompChar ':' l9 with
                    | none => false
                    | some l10 =>
                      match chompDigits 2 l10 with
                      | none => false
                      | some l11 => tzMatch l11

/-! ## StructuralValidator (`src/tools/validation/structural_validator.py`) -/

/-- The namespace prefix as stored by ElementTree on tags. -/
def nsPre : String := "\x7bhttp://xch.transporeon.com/soap/\x7d"

/-- A tag qualified with the expected namespace. -/
def nsTag (name : String) : String := nsPre ++ name

/-- `StructuralValidator._validate_namespace`. -/
def validateNamespace (root : Elem) : Bool :=
  root.tag.startsWith nsPre || root.tag = "transport_orders"

/-- `StructuralValidator._validate_location_structure`. -/
def validateLocationStructure (location : Elem) (stopNumber : Nat) (r : VR) : VR :=
  let r := ["company_name", "city", "country"].foldl
    (fun r name =>
      match pyOrElem (location.findChild (nsTag name)) (location.findChild name) with
      | none =>
        r.addError ("Stop " ++ toString stopNumber ++
          ": location missing required element: " ++ name)
      | some el =>
        if textTruthy el.text then r
        else r.addError ("Stop " ++ toString stopNumber ++
          ": location missing required element: " ++ name)) r
  match pyOrElem (location.findChild (nsTag "country")) (location.findChild "country") with
  | none => r
  | some country =>
    match country.text with
    | none => r
    | some t =>
      if t.isEmpty then r
      else if countryMatch t then r
      else r.addError ("Stop " ++ toString stopNumber ++
        ": country code must be 2 uppercase letters")

/-- One branch of `StructuralValidator._validate_date_time_period`:
`if el is None or not el.text: missing-error; elif not valid-format: format-error`. -/
def checkDatetimeElem (el? : Option Elem) (missingMsg badMsg : String) (r : VR) : VR :=
  match el? with
  | none => r.addError missingMsg
  | some el =>
    match el.text with
    | none => r.addError missingMsg
    | some t =>
      if t.isEmpty then r.addError missingMsg
      else if isoDatetimeMatch t then r
      else r.addError badMsg

/-- `StructuralValidator._validate_date_time_period`. -/
def validateDateTimePeriod (period : Elem) (stopNumber : Nat) (r : VR) : VR :=
  let startE := pyOrElem (period.findChild (nsTag "start")) (period.findChild "start")
  let endE := pyOrElem (period.findChild (nsTag "end")) (period.findChild "end")
  let r := checkDatetimeElem startE
    ("Stop " ++ toString stopNumber ++ ": date_time_period missing start element")
    ("Stop " ++ toString stopNumber ++ ": invalid start date format") r
  checkDatetimeElem endE
    ("Stop " ++ toString stopNumber ++ ": date_time_period missing end element")
    ("Stop " ++ toString stopNumber ++ ": invalid end date format") r

/-- The stop-id check in `StructuralValidator._validate_stops`: error when the
id element is missing or empty, error on a duplicate id, otherwise record
the id in the accumulated `stop_ids` list. -/
def stopIdCheck (i : Nat) (ids : List String) (stopId : Option Elem) (r : VR) :
    List String × VR :=
  match stopId with
  | none => (ids, r.addError ("Stop " ++ toString (i + 1) ++ ": missing or empty id element"))
  | some el =>
    match el.text with
    | none => (ids, r.addError ("Stop " ++ toString (i + 1) ++ ": missing or empty id element"))
    | some t =>
      if t.isEmpty then
        (ids, r.addError ("Stop " ++ toString (i + 1) ++ ": missing or empty id element"))
      else if t ∈ ids then (ids, r.addError ("Duplicate stop ID: " ++ t))
      else (ids ++ [t], r)

/-- The index-presence check in `StructuralValidator._validate_stops`. -/
def stopIndexCheck (i : Nat) (stopIndex : Option Elem) (r : VR) : VR :=
  match stopIndex with
  | none => r.addError ("Stop " ++ toString (i + 1) ++ ": missing index element")
  | some _ => r

/-- The location check in `StructuralValidator._validate_stops`. -/
def stopLocationCheck (i : Nat) (location : Option Elem) (r : VR) : VR :=
  match location with
  | none => r.addError ("Stop " ++ toString (i + 1) ++ ": missing location element")
  | some loc => validateLocationStructure loc (i + 1) r

/-- The date_time_period check in `StructuralValidator._validate_stops`. -/
def stopPeriodCheck (i : Nat) (dtp : Option Elem) (r : VR) : VR :=
  match dtp with
  | none => r.addError ("Stop " ++ toString (i + 1) ++ ": missing date_time_period element")
  | some p => validateDateTimePeriod p (i + 1) r

/-- The loop of `StructuralValidator._validate_stops`, carrying the
enumeration index and the accumulated `stop_ids` list. -/
def validateStopsGo : Nat → List String → List Elem → VR → VR
  | _, _, [], r => r
  | i, ids, stop :: rest, r =>
    let stopId := pyOrElem (stop.findChild (nsTag "id")) (stop.findChild "id")
    let stopIndex := pyOrElem (stop.findChild (nsTag "index")) (stop.findChild "index")
    let location := pyOrElem (stop.findChild (nsTag "location")) (stop.findChild "location")
    let dtp := pyOrElem (stop.findChild (nsTag "date_time_period"))
      (stop.findChild "date_time_period")
    let idStep := stopIdCheck i ids stopId r
    let r := stopPeriodCheck i dtp
      (stopLocationCheck i location (stopIndexCheck i stopIndex idStep.2))
    validateStopsGo (i + 1) idStep.1 rest r

/-- `StructuralValidator._validate_stops`. -/
def validateStops (stopElements : List Elem) (r : VR) : VR :=
  validateStopsGo 0 [] stopElements r

/-- The loading half of `StructuralValidator._validate_stop_id_structure`. -/
def loadingIdsCheck (loading : Option Elem) (r : VR) : VR :=
  match loading with
  | none => r
  | some l =>
    if (pyOrList (l.findAll (nsTag "loading_stop_id")) (l.findAll "loading_stop_id")).isEmpty then
      r.addError "loading_stop_ids must contain at least one loading_stop_id"
    else r

/-- The unloading half of `StructuralValidator._validate_stop_id_structure`. -/
def unloadingIdsCheck (unloading : Option Elem) (r : VR) : VR :=
  match unloading with
  | none => r
  | some u =>
    if (pyOrList (u.findAll (nsTag "unloading_stop_id"))
        (u.findAll "unloading_stop_id")).isEmpty then
      r.addError "unloading_stop_ids must contain at least one unloading_stop_id"
    else r

/-- `StructuralValidator._validate_stop_id_structure`. -/
def validateStopIdStructure (orderDetails : Elem) (r : VR) : VR :=
  unloadingIdsCheck
    (pyOrElem (orderDetails.findChild (nsTag "unloading_stop_ids"))
      (orderDetails.findChild "unloading_stop_ids"))
    (loadingIdsCheck
      (pyOrElem (orderDetails.findChild (nsTag "loading_stop_ids"))
        (orderDetails.findChild "loading_stop_ids")) r)

/-- `StructuralValidator._validate_order_details`. -/
def validateOrderDetails (orderDetails : Elem) (r : VR) : VR :=
  let r := ["number", "loading_stop_ids", "unloading_stop_ids"].foldl
    (fun r name =>
      match pyOrElem (orderDetails.findChild (nsTag name)) (orderDetails.findChild name) with
      | none => r.addError ("order_details missing required element: " ++ name)
      | some _ => r) r
  validateStopIdStructure orderDetails r

/-- `StructuralValidator._validate_required_elements`. -/
def validateRequiredElements (transportOrder : Elem) (r : VR) : VR :=
  ["number", "status", "scheduling_unit", "orders", "stops"].foldl
    (fun r name =>
      match orIfNone (transportOrder.findChild (nsTag name)) (transportOrder.findChild name) with
      | none => r.addError ("Required element '" ++ name ++ "' is missing")
      | some el =>
        if (name = "number" || name = "status" || name = "scheduling_unit") &&
            !textTruthy el.text then
          r.addError ("Required element '" ++ name ++ "' is empty")
        else r) r

/-- The orders half of `StructuralValidator._validate_element_structure`. -/
def ordersStructCheck (transportOrder : Elem) (r : VR) : VR :=
  match pyOrElem (transportOrder.findChild (nsTag "orders"))
      (transportOrder.findChild "orders") with
  | none => r
  | some orders =>
    match pyOrElem (orders.findChild (nsTag "order_details"))
        (orders.findChild "order_details") with
    | none => r.addError "orders element must contain order_details"
    | some od => validateOrderDetails od r

/-- The stops half of `StructuralValidator._validate_element_structure`. -/
def stopsStructCheck (transportOrder : Elem) (r : VR) : VR :=
  match pyOrElem (transportOrder.findChild (nsTag "stops"))
      (transportOrder.findChild "stops") with
  | none => r
  | some stops =>
    if (pyOrList (stops.findAll (nsTag "stop")) (stops.findAll "stop")).isEmpty then
      r.addError "stops element must contain at least one stop"
    else validateStops (pyOrList (stops.findAll (nsTag "stop")) (stops.findAll "stop")) r

/-- `StructuralValidator._validate_element_structure`. -/
def validateElementStructure (transportOrder : Elem) (r : VR) : VR :=
  stopsStructCheck transportOrder (ordersStructCheck transportOrder r)

/-- The transport_order lookup at the head of
`StructuralValidator.validate_xml_structure`: the namespaced descendant
search, falling back to the bare name for backwards compatibility. -/
def locateTransportOrder (root : Elem) : Option Elem :=
  orIfNone (root.findDesc (nsTag "transport_order")) (root.findDesc "transport_order")

/-- The namespace check at the head of `validate_xml_structure`. -/
def namespaceCheck (root : Elem) (r : VR) : VR :=
  if validateNamespace root then r else r.addError "Missing or incorrect namespace"

/-- The root-element check of `validate_xml_structure`. -/
def rootTagCheck (root : Elem) (r : VR) : VR :=
  if root.tag = nsTag "transport_orders" || root.tag = "transport_orders" then r
  else r.addError "Root element must be 'transport_orders'"

/-- `StructuralValidator.validate_xml_structure`; the argument is the outcome
of `ET.fromstring` (`.error e` when parsing raised `ParseError e`). -/
def validateXmlStructure : Except String Elem → VR
  | .error e => VR.init.addError ("XML parsing error: " ++ e)
  | .ok root =>
    match locateTransportOrder root with
    | none =>
      (rootTagCheck root (namespaceCheck root VR.init)).addError
        "No transport_order element found"
    | some transportOrder =>
      validateElementStructure transportOrder
        (validateRequiredElements transportOrder
          (rootTagCheck root (namespaceCheck root VR.init)))

/-! ## StructuralValidator, second pass: `validate_field_formats`

The per-field rules come from a configuration file that is not part of
`src/`; the embedding therefore takes the rule table as an argument, as well
as the outcome of Python `float()` parsing and of `re.match` on
configuration-supplied patterns. -/

/-- One entry of `field_validation_rules["transport_order"]`. -/
structure FieldRule where
  required : Bool := false
  type? : Option String := none
  min_length : Option Nat := none
  max_length : Option Nat := none
  pattern : Option String := none
  error_message : Option String := none
  allowed_values : Option (List String) := none

/-- The Python `repr` of a list of strings, as interpolated by
`f"Field ... must be one of: \x7ballowed_values\x7d"`. -/
def pyListRepr (l : List String) : String :=
  "[" ++ String.intercalate ", " (l.map (fun s => "'" ++ s ++ "'")) ++ "]"

/-- The length checks of `StructuralValidator._apply_field_validation`
(`min_length`/`max_length` are Python-truthiness-guarded, so a configured 0
is skipped). -/
def lengthChecks (fieldName value : String) (rules : FieldRule) (r : VR) : VR :=
  let r :=
    match rules.min_length with
    | none => r
    | some m =>
      if m ≠ 0 && value.length < m then
        r.addError ("Field '" ++ fieldName ++ "' is too short (minimum " ++
          toString m ++ " characters)")
      else r
  match rules.max_length with
  | none => r
  | some m =>
    if m ≠ 0 && value.length > m then
      r.addError ("Field '" ++ fieldName ++ "' is too long (maximum " ++
        toString m ++ " characters)")
    else r

/-- The pattern check of `_apply_field_validation` (`patternMatch` stands for
`re.match` on the configured pattern). -/
def patternCheck (patternMatch : String → String → Bool) (fieldName value : String)
    (rules : FieldRule) (r : VR) : VR :=
  match rules.pattern with
  | none => r
  | some p =>
    if !p.isEmpty && !patternMatch p value then
      r.addError ((rules.error_message).getD ("Field '" ++ fieldName ++ "' format is invalid"))
    else r

/-- The allowed-values check of `_apply_field_validation`. -/
def allowedValuesCheck (fieldName value : String) (rules : FieldRule) (r : VR) : VR :=
  match rules.allowed_values with
  | none => r
  | some l =>
    if !l.isEmpty && value ∉ l then
      r.addError ("Field '" ++ fieldName ++ "' must be one of: " ++ pyListRepr l)
    else r

/-- `StructuralValidator._apply_field_validation` (`floatParses` stands for
whether Python `float(value)` succeeds). -/
def applyFieldValidation (floatParses : String → Bool)
    (patternMatch : String → String → Bool) (fieldName value : String)
    (rules : FieldRule) (r : VR) : VR :=
  if rules.required && value.isEmpty then
    r.addError ("Field '" ++ fieldName ++ "' is required but empty")
  else if rules.type? = some "number" && !floatParses value then
    r.addError ("Field '" ++ fieldName ++ "' must be a number: " ++ value)
  else
    allowedValuesCheck fieldName value rules
      (patternCheck patternMatch fieldName value rules
        (lengthChecks fieldName value rules r))

/-- `StructuralValidator._validate_transport_order_fields`; the rule table is
iterated in configuration order. -/
def validateTransportOrderFields (floatParses : String → Bool)
    (patternMatch : String → String → Bool) (fieldRules : List (String × FieldRule))
    (transportOrder : Elem) (r : VR) : VR :=
  fieldRules.foldl
    (fun r fr =>
      match transportOrder.findChild fr.1 with
      | none => r
      | some el =>
        match el.text with
        | none => r
        | some t =>
          if t.isEmpty then r
          else applyFieldValidation floatParses patternMatch fr.1 t fr.2 r) r

/-- The hard-coded SCAC check applied to one `parameter` element in
`StructuralValidator._validate_parameter_formats`. -/
def paramScacCheck (param : Elem) (r : VR) : VR :=
  match param.attr "qualifier" with
  | none => r
  | some q =>
    if q.isEmpty then r
    else
      match param.findChild "value" with
      | none => r
      | some valueElem =>
        match valueElem.text with
        | none => r
        | some v =>
          if v.isEmpty then r
          else if q = "ocean.scac.no" && !scacMatch v then
            r.addError ("Invalid SCAC code format: " ++ v)
          else r

/-- `StructuralValidator._validate_parameter_formats`. -/
def validateParameterFormats (transportOrder : Elem) (r : VR) : VR :=
  match transportOrder.findChild "parameters" with
  | none => r
  | some parameters => (parameters.findAll "parameter").foldl (fun r p => paramScacCheck p r) r

/-- `StructuralValidator.validate_field_formats`.  Note that unlike
`validate_xml_structure` this pass looks the `transport_order` element up
only under the namespace, with no bare-name fallback. -/
def validateFieldFormats (floatParses : String → Bool)
    (patternMatch : String → String → Bool) (fieldRules : List (String × FieldRule)) :
    Except String Elem → VR
  | .error e => VR.init.addError ("XML parsing error: " ++ e)
  | .ok root =>
    match root.findDesc (nsTag "transport_order") with
    | none => VR.init.addError "No transport_order element found"
    | some transportOrder =>
      validateParameterFormats transportOrder
        (validateTransportOrderFields floatParses patternMatch fieldRules transportOrder VR.init)

/-! ## StructuralValidator, third pass: `validate_stop_references` -/

/-- The stop-id set collected by `validate_stop_references`. -/
def collectStopIds (transportOrder : Elem) : List String :=
  match transportOrder.findChild "stops" with
  | none => []
  | some stops =>
    (stops.findAll "stop").foldl
      (fun ids stop =>
        match stop.findChild "id" with
        | none => ids
        | some idElem =>
          match idElem.text with
          | none => ids
          | some t => if t.isEmpty then ids else ids ++ [t]) []

/-- `StructuralValidator._validate_stop_id_references`. -/
def validateStopIdReferences (orderDetails : Elem) (stopIds : List String) (r : VR) : VR :=
  let r :=
    match orderDetails.findChild "loading_stop_ids" with
    | none => r
    | some loading =>
      (loading.findAll "loading_stop_id").foldl
        (fun r lid =>
          match lid.text with
          | none => r
          | some t =>
            if !t.isEmpty && t ∉ stopIds then
              r.addError ("Loading stop ID '" ++ t ++ "' does not reference an existing stop")
            else r) r
  match orderDetails.findChild "unloading_stop_ids" with
  | none => r
  | some unloading =>
    (unloading.findAll "unloading_stop_id").foldl
      (fun r uid =>
        match uid.text with
        | none => r
        | some t =>
          if !t.isEmpty && t ∉ stopIds then
            r.addError ("Unloading stop ID '" ++ t ++ "' does not reference an existing stop")
          else r) r

/-- `StructuralValidator.validate_stop_references` (again namespaced-only
transport_order lookup). -/
def validateStopReferences : Except String Elem → VR
  | .error e => VR.init.addError ("XML parsing error: " ++ e)
  | .ok root =>
    match root.findDesc (nsTag "transport_order") with
    | none => VR.init.addError "No transport_order element found"
    | some transportOrder =>
      match transportOrder.findChild "orders" with
      | none => VR.init
      | some orders =>
        match orders.findChild "order_details" with
        | none => VR.init
        | some od => validateStopIdReferences od (collectStopIds transportOrder) VR.init

/-! ## BusinessValidator (`src/tools/validation/business_validator.py`)

The per-type business rules come from a configuration file outside `src/`;
the embedding takes them as an argument of type `String → Option TypeRules`
(the `transport_type_rules` table). -/

/-- `rules["order_item_rules"]`. -/
structure OrderItemRules where
  required_fields : List String := []
  required_quantities : List String := []
  required_parameters : List String := []

/-- `rules["parameter_restrictions"]`. -/
structure ParamRestrictions where
  forbidden_qualifiers : List String := []
  mandatory_fixed_parameters : List (String × String) := []

/-- One entry of `business_validation_rules["transport_type_rules"]`. -/
structure TypeRules where
  required_elements : List String := []
  minimum_stops : Nat := 0
  maximum_stops : Option Nat := none
  fixed_values : List (String × String) := []
  parameter_restrictions : ParamRestrictions := {}
  required_parameters : List String := []
  requires_carrier_creditor : Bool := false
  allows_order_items : Bool := false
  order_item_rules : OrderItemRules := {}

/-- First-match association-list lookup (Python dict `get`). -/
def lookupStr (l : List (String × String)) (k : String) : Option String :=
  match l.find? (fun p => p.1 = k) with
  | some p => some p.2
  | none => none

/-- How Python str-formats an `Optional[str]` (`None` prints as "None"). -/
def pyOptStr : Option String → String
  | none => "None"
  | some s => s

/-- The minimum bound of `BusinessValidator._validate_stop_counts`. -/
def minStopsCheck (ty : String) (rules : TypeRules) (n : Nat) (r : VR) : VR :=
  if n < rules.minimum_stops then
    r.addError (ty ++ ": Minimum " ++ toString rules.minimum_stops ++
      " stops required, found " ++ toString n)
  else r

/-- The maximum bound of `_validate_stop_counts` (an absent configuration
entry defaults to `float('inf')`, so no upper bound is checked). -/
def maxStopsCheck (ty : String) (rules : TypeRules) (n : Nat) (r : VR) : VR :=
  match rules.maximum_stops with
  | none => r
  | some mx =>
    if n > mx then
      r.addError (ty ++ ": Maximum " ++ toString mx ++ " stops allowed, found " ++ toString n)
    else r

/-- `BusinessValidator._validate_stop_counts`. -/
def validateStopCounts (t : Elem) (ty : String) (rules : TypeRules) (r : VR) : VR :=
  match t.findChild "stops" with
  | none => r
  | some stops =>
    maxStopsCheck ty rules (stops.findAll "stop").length
      (minStopsCheck ty rules (stops.findAll "stop").length r)

/-- `BusinessValidator._validate_ocean_fixed_values`. -/
def validateOceanFixedValues (t : Elem) (rules : TypeRules) (r : VR) : VR :=
  rules.fixed_values.foldl
    (fun r fv =>
      match t.findChild fv.1 with
      | none => r.addError ("Ocean visibility: Missing required field '" ++ fv.1 ++ "'")
      | some el =>
        if el.text = some fv.2 then r
        else r.addError ("Ocean visibility: Field '" ++ fv.1 ++ "' must be '" ++ fv.2 ++
          "', found '" ++ pyOptStr el.text ++ "'")) r

/-- The forbidden-qualifier scan of `_validate_parameter_restrictions`. -/
def forbiddenQualifiersCheck (t : Elem) (ty : String) (forbidden : List String) (r : VR) : VR :=
  match t.findChild "parameters" with
  | none => r
  | some ps =>
    (ps.findAll "parameter").foldl
      (fun r p =>
        match p.attr "qualifier" with
        | none => r
        | some q =>
          if q ∈ forbidden then
            r.addError (ty ++ ": Forbidden parameter '" ++ q ++ "' is not allowed")
          else r) r

/-- `BusinessValidator._validate_required_parameters`. -/
def validateRequiredParametersB (t : Elem) (requiredParams : List String) (r : VR) : VR :=
  match t.findChild "parameters" with
  | none =>
    if requiredParams.isEmpty then r
    else r.addError "Required parameters section is missing"
  | some ps =>
    let existing := (ps.findAll "parameter").map (fun p => p.attr "qualifier")
    requiredParams.foldl
      (fun r rq =>
        if some rq ∈ existing then r
        else r.addError ("Required parameter '" ++ rq ++ "' is missing")) r

/-- `BusinessValidator._validate_mandatory_fixed_parameters`. -/
def validateMandatoryFixedParameters (t : Elem) (mandatoryFixed : List (String × String))
    (r : VR) : VR :=
  match t.findChild "parameters" with
  | none => r
  | some ps =>
    (ps.findAll "parameter").foldl
      (fun r p =>
        match p.attr "qualifier" with
        | none => r
        | some q =>
          match lookupStr mandatoryFixed q with
          | none => r
          | some expected =>
            match p.findChild "value" with
            | none => r.addError ("Parameter '" ++ q ++ "' must have value '" ++ expected ++ "'")
            | some ve =>
              if ve.text = some expected then r
              else r.addError ("Parameter '" ++ q ++ "' must have value '" ++ expected ++ "'")) r

/-- `BusinessValidator._validate_parameter_restrictions`. -/
def validateParameterRestrictions (t : Elem) (ty : String) (rules : TypeRules) (r : VR) : VR :=
  validateMandatoryFixedParameters t rules.parameter_restrictions.mandatory_fixed_parameters
    (if ty = "ocean_visibility" then
      validateRequiredParametersB t rules.required_parameters
        (forbiddenQualifiersCheck t ty rules.parameter_restrictions.forbidden_qualifiers r)
    else forbiddenQualifiersCheck t ty rules.parameter_restrictions.forbidden_qualifiers r)

/-- The required-field loop of one order item in `_validate_order_items_rules`. -/
def itemRequiredFieldsCheck (itemRules : OrderItemRules) (i : Nat) (item : Elem) (r : VR) : VR :=
  itemRules.required_fields.foldl
    (fun r f =>
      match item.findChild f with
      | none =>
        r.addError ("Order item " ++ toString (i + 1) ++ ": Missing required field '" ++ f ++ "'")
      | some el =>
        if textTruthy el.text then r
        else r.addError ("Order item " ++ toString (i + 1) ++
          ": Missing required field '" ++ f ++ "'")) r

/-- The recommended-quantity warnings of one order item. -/
def itemQuantitiesCheck (itemRules : OrderItemRules) (i : Nat) (item : Elem) (r : VR) : VR :=
  match item.findChild "quantities" with
  | none => r
  | some qs =>
    itemRules.required_quantities.foldl
      (fun r rq =>
        if rq ∈ (qs.findAll "quantity").filterMap
            (fun (q : Elem) =>
              match q.findChild "qualifier" with
              | none => none
              | some qe =>
                match qe.text with
                | none => none
                | some s => if s.isEmpty then none else some s) then r
        else r.addWarning ("Order item " ++ toString (i + 1) ++
          ": Recommended quantity '" ++ rq ++ "' is missing")) r

/-- The recommended-parameter warnings of one order item. -/
def itemParametersCheck (itemRules : OrderItemRules) (i : Nat) (item : Elem) (r : VR) : VR :=
  match item.findChild "parameters" with
  | none => r
  | some ips =>
    itemRules.required_parameters.foldl
      (fun r rp =>
        if some rp ∈ (ips.findAll "parameter").map (fun p => p.attr "qualifier") then r
        else r.addWarning ("Order item " ++ toString (i + 1) ++
          ": Recommended parameter '" ++ rp ++ "' is missing")) r

/-- The per-item body of `BusinessValidator._validate_order_items_rules`. -/
def orderItemCheck (itemRules : OrderItemRules) (i : Nat) (item : Elem) (r : VR) : VR :=
  itemParametersCheck itemRules i item
    (itemQuantitiesCheck itemRules i item (itemRequiredFieldsCheck itemRules i item r))

/-- The enumerated loop of `_validate_order_items_rules`. -/
def orderItemsGo (itemRules : OrderItemRules) : Nat → List Elem → VR → VR
  | _, [], r => r
  | i, item :: rest, r => orderItemsGo itemRules (i + 1) rest (orderItemCheck itemRules i item r)

/-- `BusinessValidator._validate_order_items_rules`. -/
def validateOrderItemsRules (t : Elem) (rules : TypeRules) (r : VR) : VR :=
  match t.findChild "orders" with
  | none => r
  | some orders =>
    match orders.findChild "order_details" with
    | none => r
    | some od =>
      match od.findChild "order_items" with
      | none => r
      | some items => orderItemsGo rules.order_item_rules 0 (items.findAll "order_item") r

/-- The carrier-creditor presence check of `_validate_complex_road_rules`. -/
def carrierCreditorRequiredCheck (t : Elem) (rules : TypeRules) (r : VR) : VR :=
  if rules.requires_carrier_creditor then
    match t.findChild "carrier_creditor_number" with
    | none => r.addError "Complex road freight requires carrier_creditor_number"
    | some el =>
      if textTruthy el.text then r
      else r.addError "Complex road freight requires carrier_creditor_number"
  else r

/-- `BusinessValidator._validate_complex_road_rules`. -/
def validateComplexRoadRules (t : Elem) (rules : TypeRules) (r : VR) : VR :=
  if rules.allows_order_items then
    validateOrderItemsRules t rules (carrierCreditorRequiredCheck t rules r)
  else carrierCreditorRequiredCheck t rules r

/-- The required-elements loop heading `_validate_transport_specific_rules`. -/
def requiredElementsCheckB (t : Elem) (ty : String) (rules : TypeRules) (r : VR) : VR :=
  rules.required_elements.foldl
    (fun r name =>
      match pyOrElem (t.findChild (nsTag name)) (t.findChild name) with
      | none => r.addError (ty ++ ": Required element '" ++ name ++ "' is missing")
      | some _ => r) r

/-- The `if transport_type == "ocean_visibility"` gate around
`_validate_ocean_fixed_values`. -/
def oceanFixedGate (t : Elem) (ty : String) (rules : TypeRules) (r : VR) : VR :=
  if ty = "ocean_visibility" then validateOceanFixedValues t rules r else r

/-- The `if transport_type == "complex_road"` gate around
`_validate_complex_road_rules`. -/
def complexRoadGate (t : Elem) (ty : String) (rules : TypeRules) (r : VR) : VR :=
  if ty = "complex_road" then validateComplexRoadRules t rules r else r

/-- `BusinessValidator._validate_transport_specific_rules`. -/
def validateTransportSpecificRules (t : Elem) (ty : String) (rules : TypeRules) (r : VR) : VR :=
  complexRoadGate t ty rules
    (validateParameterRestrictions t ty rules
      (oceanFixedGate t ty rules
        (validateStopCounts t ty rules
          (requiredElementsCheckB t ty rules r))))

/-- `BusinessValidator.validate_transport_type_rules` (`typeRules` is the
configured `transport_type_rules` table). -/
def validateTransportTypeRules (typeRules : String → Option TypeRules)
    (p : Except String Elem) (ty : String) : VR :=
  match p with
  | .error e => VR.init.addError ("XML parsing error: " ++ e)
  | .ok root =>
    match root.findDesc (nsTag "transport_order") with
    | none => VR.init.addError "No transport_order element found"
    | some t =>
      match typeRules ty with
      | none => VR.init
      | some rules => validateTransportSpecificRules t ty rules VR.init

/-- `BusinessValidator._validate_carrier_creditor_consistency`. -/
def validateCarrierCreditorConsistency (t : Elem) (r : VR) : VR :=
  match t.findChild "carrier_creditor_number" with
  | none => r
  | some ce =>
    match ce.text with
    | none => r
    | some carrier =>
      if carrier.isEmpty then r
      else
        match t.findChild "parameters" with
        | none => r
        | some ps =>
          (ps.findAll "parameter").foldl
            (fun r p =>
              if p.attr "qualifier" = some "custom.preassignedCarrierCreditorNumber" then
                match p.findChild "value" with
                | none => r
                | some ve =>
                  if ve.text = some carrier then r
                  else r.addWarning
                    "Carrier creditor number inconsistency between transport and order levels"
              else r) r

/-- The timezone stripping in `_validate_date_sequence`:
`split('+')[0]` when a '+' occurs, else `replace('Z', '')` when a 'Z' occurs. -/
def stripTz (s : String) : String :=
  if s.contains '+' then (s.splitOn "+").headD ""
  else if s.contains 'Z' then s.replace "Z" ""
  else s

/-- The stop start dates collected by `_validate_date_sequence`; `fromIso`
stands for `datetime.fromisoformat` (`none` when it raises `ValueError`,
in which case the stop is skipped). -/
def collectStopDates (fromIso : String → Option Int) (t : Elem) : List Int :=
  match t.findChild "stops" with
  | none => []
  | some stops =>
    (stops.findAll "stop").filterMap
      (fun stop =>
        match stop.findChild "date_time_period" with
        | none => none
        | some period =>
          match period.findChild "start" with
          | none => none
          | some se =>
            match se.text with
            | none => none
            | some ds => if ds.isEmpty then none else fromIso (stripTz ds))

/-- Whether some adjacent pair of collected dates is decreasing (the loop in
`_validate_date_sequence` warns once and breaks). -/
def datesOutOfOrder : List Int → Bool
  | a :: b :: rest => b < a || datesOutOfOrder (b :: rest)
  | _ => false

/-- `BusinessValidator._validate_date_sequence` (warning only). -/
def validateDateSequence (fromIso : String → Option Int) (t : Elem) (r : VR) : VR :=
  if datesOutOfOrder (collectStopDates fromIso t) then
    r.addWarning "Stop dates may not be in logical sequence - verify pickup and delivery order"
  else r

/-- Python `int(s)` on the text of an index element: optional surrounding ASCII
whitespace, an optional sign, then at least one ASCII digit.  (Underscore
separators and non-ASCII digits, which Python would also accept, do not occur
in the modelled documents.) -/
def pyParseInt (s : String) : Option Int :=
  let l := s.data.dropWhile (fun c => c = ' ' || c = '\t' || c = '\n' || c = '\r')
  let l := (l.reverse.dropWhile (fun c => c = ' ' || c = '\t' || c = '\n' || c = '\r')).reverse
  let (sign, digits) :=
    match l with
    | '-' :: rest => ((-1 : Int), rest)
    | '+' :: rest => ((1 : Int), rest)
    | rest => ((1 : Int), rest)
  if digits.isEmpty || !digits.all Char.isDigit then none
  else some (sign * (digits.foldl (fun acc c => acc * 10 + (c.toNat - '0'.toNat)) 0 : Nat))

/-- The index texts considered by `_validate_stop_index_sequence` (present and
non-empty), each parsed with `int()`. -/
def stopIndexEntries (t : Elem) : List (Option Int) :=
  match t.findChild "stops" with
  | none => []
  | some stops =>
    (stops.findAll "stop").filterMap
      (fun stop =>
        match stop.findChild "index" with
        | none => none
        | some ie =>
          match ie.text with
          | none => none
          | some s => if s.isEmpty then none else some (pyParseInt s))

/-- The collection loop of `_validate_stop_index_sequence`: parse failures
produce an error, successes accumulate into `indices`. -/
def indexLoop (entries : List (Option Int)) (r : VR) : List Int × VR :=
  entries.foldl
    (fun acc e =>
      match e with
      | some n => (acc.1 ++ [n], acc.2)
      | none => (acc.1, acc.2.addError "Stop index must be a number")) ([], r)

/-- `indices[0] != 0` check on the sorted indices. -/
def startIndexCheck (sorted : List Int) (r : VR) : VR :=
  match sorted.head? with
  | none => r
  | some h => if h = 0 then r else r.addError "Stop indices should start from 0"

/-- Whether some adjacent pair of the sorted indices fails `b = a + 1` (the
loop errors once and breaks). -/
def notSequential : List Int → Bool
  | a :: b :: rest => !(b = a + 1) || notSequential (b :: rest)
  | _ => false

def seqIndexCheck (sorted : List Int) (r : VR) : VR :=
  if notSequential sorted then r.addError "Stop indices should be sequential" else r

/-- The post-collection part of `_validate_stop_index_sequence`. -/
def stopIndexTail (indices : List Int) (r : VR) : VR :=
  if indices.isEmpty then r
  else
    seqIndexCheck (List.insertionSort (· ≤ ·) indices)
      (startIndexCheck (List.insertionSort (· ≤ ·) indices) r)

/-- `BusinessValidator._validate_stop_index_sequence`. -/
def validateStopIndexSequence (t : Elem) (r : VR) : VR :=
  match indexLoop (stopIndexEntries t) r with
  | (indices, r) => stopIndexTail indices r

/-- `BusinessValidator.validate_cross_field_consistency` (namespaced-only
transport_order lookup). -/
def validateCrossFieldConsistency (fromIso : String → Option Int) :
    Except String Elem → VR
  | .error e => VR.init.addError ("XML parsing error: " ++ e)
  | .ok root =>
    match root.findDesc (nsTag "transport_order") with
    | none => VR.init.addError "No transport_order element found"
    | some t =>
      validateStopIndexSequence t
        (validateDateSequence fromIso t (validateCarrierCreditorConsistency t VR.init))

/-- The four mandatory ocean qualifiers of `validate_ocean_completeness`. -/
def requiredOceanParamsB : List String :=
  ["visibility.ocean.product", "ocean.scac.no", "ocean.bl.no", "ocean.container.no"]

/-- The per-parameter value checks of `validate_ocean_completeness`. -/
def oceanParamValueCheck (p : Elem) (r : VR) : VR :=
  match p.attr "qualifier" with
  | none => r
  | some q =>
    if q = "visibility.ocean.product" then
      match p.findChild "value" with
      | none => r.addError "Ocean visibility parameter must be 'true'"
      | some ve =>
        if ve.text = some "true" then r
        else r.addError "Ocean visibility parameter must be 'true'"
    else if q = "ocean.scac.no" then
      match p.findChild "value" with
      | none => r
      | some ve =>
        match ve.text with
        | none => r
        | some v =>
          if v.isEmpty then r
          else if scacMatch v then r
          else r.addError ("Invalid SCAC code format: " ++ v)
    else r

/-- `BusinessValidator.validate_ocean_completeness`. -/
def validateOceanCompleteness : Except String Elem → VR
  | .error e => VR.init.addError ("XML parsing error: " ++ e)
  | .ok root =>
    match root.findDesc (nsTag "transport_order") with
    | none => VR.init.addError "No transport_order element found"
    | some t =>
      match t.findChild "scheduling_unit" with
      | none => VR.init
      | some su =>
        if su.text = some "Ocean Visibility" then
          match t.findChild "parameters" with
          | none => VR.init.addError "Ocean visibility orders must have parameters section"
          | some ps =>
            (ps.findAll "parameter").foldl (fun r p => oceanParamValueCheck p r)
              (requiredOceanParamsB.foldl
                (fun r rp =>
                  if some rp ∈ (ps.findAll "parameter").map (fun p => p.attr "qualifier") then r
                  else r.addError ("Ocean visibility: Missing required parameter '" ++ rp ++ "'"))
                VR.init)
        else VR.init

/-! ## The aggregated validate operation
(`validate_transport_order_xml` in `src/tools/main_tool.py`) -/

/-- One merge step of `validate_transport_order_xml`:
`if not sub["is_valid"]: result["is_valid"] = False; result["errors"].extend(...)`
followed by `result["warnings"].extend(...)`. -/
def aggMerge (st : VR) (sub : VR) : VR :=
  if sub.is_valid then ⟨st.is_valid, st.errors, st.warnings ++ sub.warnings⟩
  else ⟨false, st.errors ++ sub.errors, st.warnings ++ sub.warnings⟩

/-- The dictionary returned by `validate_transport_order_xml`. -/
structure AggResult where
  success : Bool
  is_valid : Bool
  structural_validation : VR
  business_validation : VR
  cross_field_validation : VR
  errors : List String
  warnings : List String

/-- The merge of the five always-run passes in `validate_transport_order_xml`,
in source order. -/
def aggFive (floatParses : String → Bool) (patternMatch : String → String → Bool)
    (fieldRules : List (String × FieldRule)) (typeRules : String → Option TypeRules)
    (fromIso : String → Option Int) (p : Except String Elem) (ty : String) : VR :=
  aggMerge
    (aggMerge
      (aggMerge
        (aggMerge (aggMerge VR.init (validateXmlStructure p))
          (validateFieldFormats floatParses patternMatch fieldRules p))
        (validateStopReferences p))
      (validateTransportTypeRules typeRules p ty))
    (validateCrossFieldConsistency fromIso p)

/-- `aggFive` followed by the ocean-only sixth pass. -/
def aggFinal (floatParses : String → Bool) (patternMatch : String → String → Bool)
    (fieldRules : List (String × FieldRule)) (typeRules : String → Option TypeRules)
    (fromIso : String → Option Int) (p : Except String Elem) (ty : String) : VR :=
  if ty = "ocean_visibility" then
    aggMerge (aggFive floatParses patternMatch fieldRules typeRules fromIso p ty)
      (validateOceanCompleteness p)
  else aggFive floatParses patternMatch fieldRules typeRules fromIso p ty

/-- `validate_transport_order_xml` (`main_tool.py`): the aggregation of the
six validation passes over the same parsed document. -/
def validateTransportOrderXml (floatParses : String → Bool)
    (patternMatch : String → String → Bool) (fieldRules : List (String × FieldRule))
    (typeRules : String → Option TypeRules) (fromIso : String → Option Int)
    (p : Except String Elem) (ty : String) : AggResult :=
  { success := true
    is_valid := (aggFinal floatParses patternMatch fieldRules typeRules fromIso p ty).is_valid
    structural_validation := validateXmlStructure p
    business_validation := validateTransportTypeRules typeRules p ty
    cross_field_validation := validateCrossFieldConsistency fromIso p
    errors := (aggFinal floatParses patternMatch fieldRules typeRules fromIso p ty).errors
    warnings := (aggFinal floatParses patternMatch fieldRules typeRules fromIso p ty).warnings }

/-! ## Warning-only transformations

The carrier-creditor and date-sequence cross-field checks only ever append
warnings; `warnExtends` captures that shape. -/

/-- `f` leaves `is_valid` and `errors` unchanged and only appends warnings. -/
def warnExtends (f : VR → VR) : Prop :=
  ∀ r : VR, ∃ w, f r = ⟨r.is_valid, r.errors, r.warnings ++ w⟩

/-- A stop element carrying only an index, for concrete test documents. -/
def c3stop (s : String) : Elem := .mk "stop" [] none [.mk "index" [] (some s) []]

/-- A transport_order whose stops carry indices 0, 1, 3. -/
def c3to013 : Elem :=
  .mk (nsTag "transport_order") [] none
    [.mk "stops" [] none [c3stop "0", c3stop "1", c3stop "3"]]

def c3doc013 : Elem := .mk "transport_orders" [] none [c3to013]

/-- A transport_order whose stops carry indices 1, 2. -/
def c3to12 : Elem :=
  .mk (nsTag "transport_order") [] none [.mk "stops" [] none [c3stop "1", c3stop "2"]]

def c3doc12 : Elem := .mk "transport_orders" [] none [c3to12]

/-- A transport_order exhibiting the C9 mismatch: carrier 0000203512 at
transport level, 0000999999 in the order-level parameter. -/
def c9param : Elem :=
  .mk "parameter" [("qualifier", "custom.preassignedCarrierCreditorNumber")] none
    [.mk "value" [] (some "0000999999") []]

def c9to : Elem :=
  .mk (nsTag "transport_order") [] none
    [.mk "carrier_creditor_number" [] (some "0000203512") [],
     .mk "parameters" [] none [c9param]]

/-! ## XMLDOMBuilder.remove_empty_placeholders
(`src/tools/utils/xml_builder.py`)

Four `re.sub` passes over the rendered text.  In each concrete pattern the
quantified classes exclude the following literal, so matching is
deterministic except for the ordering choices implemented explicitly below
(greedy `\s*$` backtracking in pass 1, and the greedy choice of the last
`\x7b` inside `[^>]*` in pass 3).  Each pass is embedded as a matcher giving
the length of the leftmost match at a position, plus a scanner that mirrors
`re.sub`: replace a match with the empty string and continue after it, else
advance one character. -/

/-- Python `\s` on `str` patterns (ASCII part; the documents hold no
non-ASCII whitespace). -/
def pyIsSpace (c : Char) : Bool :=
  c = ' ' || c = '\t' || c = '\n' || c = '\r' || c = '\x0b' || c = '\x0c'

/-- Length of the maximal whitespace run (`\s*`, greedy). -/
def wsRun (l : List Char) : Nat := (l.takeWhile pyIsSpace).length

/-- Split at the first `\x7d`, i.e. the deterministic match of `[^}]*\}`:
`firstClose t = some (a, b)` iff `t = a ++ close :: b` with no close brace
in `a`. -/
def firstClose : List Char → Option (List Char × List Char)
  | [] => none
  | c :: rest =>
    if c = '\x7d' then some ([], rest)
    else
      match firstClose rest with
      | some (a, b) => some (c :: a, b)
      | none => none

/-- Whether a close brace occurs anywhere in the text. -/
def hasClose : List Char → Bool
  | [] => false
  | c :: rest => c = '\x7d' || hasClose rest

/-- Whether the text contains a placeholder token `\x7b[^}]*\x7d`, i.e. an
open brace with a close brace somewhere after it. -/
def hasPH : List Char → Bool
  | [] => false
  | c :: rest => (c = '\x7b' && hasClose rest) || hasPH rest

/-- Greedy backtracking of `\s*$` (non-MULTILINE `$` after `re.MULTILINE`
has been applied positionally: here `$` means end-of-string or before a
newline): the largest number of whitespace characters that can be consumed
so that the remaining suffix starts at end-of-string or at a newline. -/
def dollarBack (l : List Char) : Option Nat :=
  (List.range (wsRun l + 1)).reverse.find?
    (fun j =>
      match l.drop j with
      | [] => true
      | c :: _ => c = '\n')

/-- Length of the match of `^\s*\x7b[^}]*\x7d\s*$` at a line start
(pass 1 of `remove_empty_placeholders`, `re.MULTILINE`). -/
def p1MatchLen (s : List Char) : Option Nat :=
  match chompChar '\x7b' (s.drop (wsRun s)) with
  | none => none
  | some t =>
    match firstClose t with
    | none => none
    | some (inner, afterBrace) =>
      match dollarBack afterBrace with
      | none => none
      | some j => some (wsRun s + 1 + inner.length + 1 + j)

/-- The `re.sub` scan for pass 1, tracking whether the current position is a
line start (`^` under `re.MULTILINE`); fuel is the remaining input length. -/
def p1Go : Nat → Bool → List Char → List Char
  | 0, _, s => s
  | _ + 1, _, [] => []
  | fuel + 1, atLS, c :: rest =>
    if atLS then
      match p1MatchLen (c :: rest) with
      | some n =>
        p1Go fuel (((c :: rest).take n).getLast? = some '\n') ((c :: rest).drop n)
      | none => c :: p1Go fuel (c = '\n') rest
    else c :: p1Go fuel (c = '\n') rest

/-- Length of the match of `<([^>]+)>\s*\x7b[^}]*\x7d\s*</\1>` (pass 2:
an element containing only a placeholder). -/
def p2MatchLen (s : List Char) : Option Nat :=
  match chompChar '<' s with
  | none => none
  | some t =>
    let g := t.takeWhile (fun c => c ≠ '>')
    if g.isEmpty then none
    else
      match chompChar '>' (t.drop g.length) with
      | none => none
      | some u =>
        match chompChar '\x7b' (u.drop (wsRun u)) with
        | none => none
        | some v =>
          match firstClose v with
          | none => none
          | some (inner, after1) =>
            match chompChar '<' (after1.drop (wsRun after1)) with
            | none => none
            | some r1 =>
              match chompChar '/' r1 with
              | none => none
              | some rest2 =>
                if rest2.take g.length = g then
                  match chompChar '>' (rest2.drop g.length) with
                  | none => none
                  | some _ =>
                    some (1 + g.length + 1 + wsRun u + 1 + inner.length + 1 +
                      wsRun after1 + 2 + g.length + 1)
                else none

/-- One backtracking candidate of pass 3: the `\x7b` at offset `i` of the
tag body.  Checks `\x7b[^}]*\x7d[^>]*/>` from there and consumes the
trailing `\s*`. -/
def p3TryCandidate (t : List Char) (i : Nat) : Option Nat :=
  match firstClose (t.drop (i + 1)) with
  | none => none
  | some (inner, after1) =>
    let m := (after1.takeWhile (fun c => c ≠ '>')).length
    match chompChar '>' (after1.drop m) with
    | none => none
    | some tail2 =>
      if 1 ≤ m ∧ after1.get? (m - 1) = some '/' then
        some (1 + i + 1 + inner.length + 1 + m + 1 + wsRun tail2)
      else none

/-- Length of the match of `<[^>]*\x7b[^}]*\x7d[^>]*/>\s*` (pass 3: a
self-closing element with a placeholder attribute).  The greedy `[^>]*`
before `\x7b` makes Python try the last open brace in the run first. -/
def p3MatchLen (s : List Char) : Option Nat :=
  match chompChar '<' s with
  | none => none
  | some t =>
    ((List.range (t.takeWhile (fun c => c ≠ '>')).length).filter
        (fun i => t.get? i = some '\x7b')).reverse.findSome?
      (fun i => p3TryCandidate t i)

/-- Length of the match of `\x7b[^}]*\x7d` (pass 4: any remaining
placeholder). -/
def p4MatchLen (s : List Char) : Option Nat :=
  match chompChar '\x7b' s with
  | none => none
  | some t =>
    match firstClose t with
    | some (inner, _) => some (1 + inner.length + 1)
    | none => none

/-- The anchor-free `re.sub(pattern, '', s)` scan shared by passes 2-4. -/
def scanGo (matchLen : List Char → Option Nat) : Nat → List Char → List Char
  | 0, s => s
  | _ + 1, [] => []
  | fuel + 1, c :: rest =>
    match matchLen (c :: rest) with
    | some n => scanGo matchLen fuel ((c :: rest).drop n)
    | none => c :: scanGo matchLen fuel rest

/-- Pass 1 as a whole-text transformation. -/
def pass1 (l : List Char) : List Char := p1Go l.length true l

/-- Pass 2 as a whole-text transformation. -/
def pass2 (l : List Char) : List Char := scanGo p2MatchLen l.length l

/-- Pass 3 as a whole-text transformation. -/
def pass3 (l : List Char) : List Char := scanGo p3MatchLen l.length l

/-- Pass 4 as a whole-text transformation. -/
def pass4 (l : List Char) : List Char := scanGo p4MatchLen l.length l

/-- `XMLDOMBuilder.remove_empty_placeholders`: the four `re.sub` passes. -/
def removeEmptyPlaceholders (s : String) : String :=
  ⟨pass4 (pass3 (pass2 (pass1 s.data)))⟩

/-! ## Generator input model

User input to the generators is a JSON-like dictionary; the keys the
generators inspect are modelled as optional fields (`none` = key absent).
Python truthiness of a string value is non-emptiness. -/

/-- A `location` sub-dictionary of a stop. -/
structure Location where
  company_name : Option String := none
  street : Option String := none
  zip : Option String := none
  city : Option String := none
  state : Option String := none
  country : Option String := none
  comment : Option String := none
  deriving Repr, DecidableEq

/-- A `date_time_period` sub-dictionary (`end_` models the "end" key). -/
structure Period where
  start : Option String := none
  end_ : Option String := none
  timezone : Option String := none
  deriving Repr, DecidableEq

/-- One entry of the `stops` input list. -/
structure UserStop where
  id : Option String := none
  index : Option Int := none
  location : Option Location := none
  date_time_period : Option Period := none
  deriving Repr, DecidableEq

/-- One entry of a `quantities` input list. -/
structure CRQty where
  qualifier : Option String := none
  value : Option String := none
  unit : Option String := none
  deriving Repr, DecidableEq

/-- One entry of a `parameters` input list. -/
structure ParamIn where
  qualifier : Option String := none
  value : Option String := none
  shipper_visibility : Option String := none
  export_to_carrier : Option String := none
  deriving Repr, DecidableEq

/-- One entry of the `order_items` input list. -/
structure CRItem where
  number : Option String := none
  short_description : Option String := none
  material_number : Option String := none
  quantities : List CRQty := []
  parameters : List ParamIn := []
  deriving Repr, DecidableEq

/-- The keys of the Complex Road input that
`ComplexRoadGenerator._perform_specific_validation` inspects. -/
structure CRInput where
  stops : List UserStop := []
  carrier_creditor_number : Option String := none
  parameters : List ParamIn := []
  order_items : List CRItem := []
  deriving Repr, DecidableEq

/-- Python `str.isdigit()` (ASCII digits; the inputs hold no Unicode
digit characters). -/
def pyIsDigitStr (s : String) : Bool :=
  !s.isEmpty && s.data.all Char.isDigit

/-- Truthiness of an optional string value (`none` and `""` are falsy). -/
def optTruthy : Option String → Bool
  | none => false
  | some s => !s.isEmpty

/-! ## ComplexRoadGenerator._perform_specific_validation
(`src/tools/generators/complex_road.py`) -/

/-- The stop-count bounds check. -/
def crStopsCheck (input : CRInput) (r : VR) : VR :=
  if input.stops.length < 2 then
    r.addError "Complex road freight requires at least 2 stops"
  else if input.stops.length > 20 then
    r.addError "Complex road freight supports maximum 20 stops"
  else r

/-- The carrier-creditor number format check, exactly as in the source:
`if carrier_creditor and not carrier_creditor.isdigit(): if
len(carrier_creditor) != 10: error`. -/
def crCarrierCheck (input : CRInput) (r : VR) : VR :=
  match input.carrier_creditor_number with
  | none => r
  | some cc =>
    if !cc.isEmpty && !pyIsDigitStr cc then
      if cc.length ≠ 10 then r.addError "Carrier creditor number must be 10 digits"
      else r
    else r

/-- The ocean qualifiers forbidden in complex road freight. -/
def crForbiddenOceanParams : List String :=
  ["ocean.scac.no", "ocean.bl.no", "ocean.container.no", "visibility.ocean.product"]

/-- The forbidden-ocean-parameter scan. -/
def crForbiddenOceanCheck (input : CRInput) (r : VR) : VR :=
  input.parameters.foldl
    (fun r p =>
      match p.qualifier with
      | none => r
      | some q =>
        if q ∈ crForbiddenOceanParams then
          r.addError ("Ocean parameter '" ++ q ++ "' not allowed in complex road freight")
        else r) r

/-- `ComplexRoadGenerator._validate_order_item`. -/
def crValidateOrderItem (item : CRItem) (i : Nat) (r : VR) : VR :=
  let r := [("number", item.number), ("short_description", item.short_description),
      ("material_number", item.material_number)].foldl
    (fun r fv =>
      if optTruthy fv.2 then r
      else r.addError ("Order item " ++ toString (i + 1) ++
        ": Required field '" ++ fv.1 ++ "' is missing")) r
  let r :=
    if item.quantities.isEmpty then
      r.addWarning ("Order item " ++ toString (i + 1) ++ ": No quantities specified")
    else
      item.quantities.foldl
        (fun r qty =>
          if optTruthy qty.qualifier then r
          else r.addError ("Order item " ++ toString (i + 1) ++
            ": Quantity qualifier is required")) r
  ["material", "plantCode", "unitOfMeasurement"].foldl
    (fun r rq =>
      if some rq ∈ item.parameters.map (fun p => p.qualifier) then r
      else r.addWarning ("Order item " ++ toString (i + 1) ++
        ": Recommended parameter '" ++ rq ++ "' is missing")) r

/-- The enumerated loop over order items. -/
def crOrderItemsGo : Nat → List CRItem → VR → VR
  | _, [], r => r
  | i, item :: rest, r => crOrderItemsGo (i + 1) rest (crValidateOrderItem item i r)

/-- The transport/order-level carrier-creditor consistency warning. -/
def crConsistencyCheck (input : CRInput) (r : VR) : VR :=
  input.parameters.foldl
    (fun r p =>
      if p.qualifier = some "custom.preassignedCarrierCreditorNumber" then
        if p.value = input.carrier_creditor_number then r
        else r.addWarning
          "Carrier creditor number inconsistency between transport and order levels"
      else r) r

/-- `ComplexRoadGenerator._perform_specific_validation`, acting on the
`is_valid`/`errors`/`warnings` part of the validation dictionary. -/
def crPerformSpecificValidation (input : CRInput) (r : VR) : VR :=
  crConsistencyCheck input
    (crOrderItemsGo 0 input.order_items
      (crForbiddenOceanCheck input (crCarrierCheck input (crStopsCheck input r))))

/-- Two stops with no further content, for concrete validation inputs. -/
def c2stop : UserStop := {}

/-- A Complex Road input whose carrier-creditor number is the 3-digit
string "123". -/
def c2input123 : CRInput :=
  { stops := [c2stop, c2stop], carrier_creditor_number := some "123" }

/-- A Complex Road input whose carrier-creditor number is 10 letters. -/
def c2inputLetters : CRInput :=
  { stops := [c2stop, c2stop], carrier_creditor_number := some "ABCDEFGHIJ" }

/-- A Complex Road input whose carrier-creditor number is "12X"
(neither all digits nor of length 10). -/
def c2input12X : CRInput :=
  { stops := [c2stop, c2stop], carrier_creditor_number := some "12X" }

/-! ## ParameterCollector.collect_ocean_parameters
(`src/tools/utils/parameter_collector.py`) -/

/-- A character of the class `[A-Z0-9]`. -/
def scacChar (c : Char) : Bool := c.isUpper || c.isDigit

/-- One entry of the configured `ocean_parameters` list. -/
structure OceanParamCfg where
  name : String
  required : Bool
  deriving Repr, DecidableEq

/-- Modelled from the spec: the `ocean_parameters` section of the transport
parameter configuration (`data/transport_parameters.json`) is not under
`src/`.  Per the spec, Ocean Visibility requires the three mandatory ocean
qualifiers (SCAC, bill-of-lading, container); the booking number is the
optional fourth, defaulted to the empty string by the collector. -/
def oceanParamsCfg : List OceanParamCfg :=
  [⟨"ocean.scac.no", true⟩, ⟨"ocean.bl.no", true⟩,
   ⟨"ocean.container.no", true⟩, ⟨"ocean.booking.no", false⟩]

/-- The keys of the Ocean Visibility input that the generator and collector
inspect (`none` = key absent; `vehicle`/`prices`/`order_items` model key
presence only). -/
structure OceanInput where
  number : Option String := none
  order_number : Option String := none
  scheduling_unit : Option String := none
  carrier_creditor_number : Option String := none
  status : Option String := none
  stops : Option (List UserStop) := none
  departure_location : Option Location := none
  arrival_location : Option Location := none
  departure_date : Option Period := none
  arrival_date : Option Period := none
  loading_stop_ids : Option (List String) := none
  unloading_stop_ids : Option (List String) := none
  parameters : List ParamIn := []
  vehicle : Bool := false
  prices : Bool := false
  order_items : Bool := false
  scac : Option String := none
  bl : Option String := none
  container : Option String := none
  booking : Option String := none
  deriving Repr, DecidableEq

/-- Dictionary access `user_input[param_name]` for the dotted ocean keys. -/
def OceanInput.oceanKey (input : OceanInput) : String → Option String
  | "ocean.scac.no" => input.scac
  | "ocean.bl.no" => input.bl
  | "ocean.container.no" => input.container
  | "ocean.booking.no" => input.booking
  | _ => none

/-- The loop of `ParameterCollector.collect_ocean_parameters`, accumulating
the result dictionary in insertion order; `.error` models a raised
`ValueError`. -/
def collectOceanGo (input : OceanInput) :
    List OceanParamCfg → List (String × String) → Except String (List (String × String))
  | [], acc => .ok acc
  | p :: rest, acc =>
    match input.oceanKey p.name with
    | none =>
      if p.required then .error ("Required ocean parameter '" ++ p.name ++ "' not provided")
      else if p.name = "ocean.booking.no" then collectOceanGo input rest (acc ++ [(p.name, "")])
      else collectOceanGo input rest acc
    | some v =>
      if p.name = "ocean.scac.no" && !scacMatch v then
        .error ("SCAC code must be 4 alphanumeric characters: " ++ v)
      else collectOceanGo input rest (acc ++ [(p.name, v)])

/-- `ParameterCollector.collect_ocean_parameters`. -/
def collectOceanParameters (input : OceanInput) : Except String (List (String × String)) :=
  collectOceanGo input oceanParamsCfg []

/-- A `parameter` element carrying qualifier `ocean.scac.no` and the given
value, as rendered in a document. -/
def scacParam (v : String) : Elem :=
  .mk "parameter" [("qualifier", "ocean.scac.no")] none [.mk "value" [] (some v) []]

/-- A transport_order carrying only that SCAC parameter. -/
def scacTO (v : String) : Elem :=
  .mk (nsTag "transport_order") [] none [.mk "parameters" [] none [scacParam v]]

/-- An Ocean Visibility input whose three mandatory ocean qualifiers are
present, with the given SCAC value. -/
def scacInput (v : String) : OceanInput :=
  { scac := some v, bl := some "BL1", container := some "C1" }

/-! ## BusinessRulesProcessor._apply_field_mapping_rule
(`src/tools/utils/business_rules_processor.py`) -/

/-- Python dict `get` on a string-valued dictionary. -/
def pyGet (d : List (String × String)) (k : String) : Option String :=
  match d.find? (fun p => p.1 = k) with
  | some p => some p.2
  | none => none

/-- Python dict assignment `d[k] = v`: replace in place if the key exists,
else append (insertion order). -/
def pySet : List (String × String) → String → String → List (String × String)
  | [], k, v => [(k, v)]
  | p :: rest, k, v => if p.1 = k then (k, v) :: rest else p :: pySet rest k v

/-- A field-mapping business rule: alternative source-field names and the
target field (`none` models a missing `target_field` entry). -/
structure FMRule where
  field_patterns : List String := []
  target_field : Option String := none
  deriving Repr, DecidableEq

/-- The pattern scan of `_apply_field_mapping_rule`: copy the first pattern
present and truthy in the user input into the target field, then break. -/
def fmScan (target : String) (patterns : List String)
    (userInput collected : List (String × String)) : List (String × String) :=
  match patterns with
  | [] => collected
  | p :: rest =>
    match pyGet userInput p with
    | some v =>
      if !v.isEmpty then pySet collected target v
      else fmScan target rest userInput collected
    | none => fmScan target rest userInput collected

/-- `BusinessRulesProcessor._apply_field_mapping_rule`. -/
def applyFieldMappingRule (rule : FMRule) (userInput collected : List (String × String)) :
    List (String × String) :=
  match rule.target_field with
  | none => collected
  | some tf =>
    if tf.isEmpty then collected
    else if optTruthy (pyGet collected tf) then collected
    else fmScan tf rule.field_patterns userInput collected

/-- The carrier-id mapping applied to a draft without a carrier value. -/
def c8rule : FMRule :=
  { field_patterns := ["carrier_id", "carrier"],
    target_field := some "carrier_creditor_number" }

/-! ## OceanVisibilityGenerator input validation and generate_xml
(`src/tools/generators/ocean_visibility.py` and the base
`validate_input` of `src/tools/generators/base_generator.py`) -/

/-- The five-key validation dictionary built by
`BaseGenerator.validate_input`. -/
structure VRX where
  is_valid : Bool
  errors : List String
  warnings : List String
  missing_required : List String
  suggested_optional : List String
  deriving Repr, DecidableEq

def VRX.addError (r : VRX) (m : String) : VRX :=
  { r with is_valid := false, errors := r.errors ++ [m] }

def VRX.addWarning (r : VRX) (m : String) : VRX :=
  { r with warnings := r.warnings ++ [m] }

/-- `self.required_ocean_parameters` of `OceanVisibilityGenerator`. -/
def requiredOceanParameters : List String :=
  ["ocean.scac.no", "ocean.bl.no", "ocean.container.no"]

/-- The missing-required message of the ocean-specific validation. -/
def missingOceanMsg (p : String) : String :=
  "Required ocean parameter '" ++ p ++ "' is missing"

/-- The stop-presence check of
`OceanVisibilityGenerator._perform_specific_validation`. -/
def oceanStopsCheck (input : OceanInput) (r : VRX) : VRX :=
  if (input.stops.getD []).length = 0 &&
      !(input.departure_location.isSome && input.arrival_location.isSome) then
    r.addError "Ocean visibility requires either 2 stops OR departure_location and arrival_location data"
  else if (input.stops.getD []).length > 0 && (input.stops.getD []).length ≠ 2 then
    r.addError "Ocean visibility requires exactly 2 stops (Departure and Arrival)"
  else r

/-- The required-ocean-parameter loop of the ocean-specific validation
(key presence in the raw input). -/
def oceanReqParamsCheck (input : OceanInput) (r : VRX) : VRX :=
  requiredOceanParameters.foldl
    (fun r pn =>
      if (input.oceanKey pn).isNone then r.addError (missingOceanMsg pn) else r) r

/-- Python `str.isalpha()` of the SCAC value with its digits replaced by
letters (ASCII model). -/
def scacDigitsAlpha (s : String) : Bool :=
  !s.isEmpty && s.data.all (fun c => (if c.isDigit then 'A' else c).isAlpha)

/-- The SCAC format check of the ocean-specific validation. -/
def oceanScacCheck (input : OceanInput) (r : VRX) : VRX :=
  let scac := input.scac.getD ""
  if !scac.isEmpty && scac.length ≠ 4 then
    r.addError "SCAC code must be exactly 4 characters"
  else if !scac.isEmpty && !scacDigitsAlpha scac then
    if !scacMatch scac then
      r.addError "SCAC code must contain only uppercase letters and numbers"
    else r
  else r

/-- The forbidden-element warnings (`vehicle`, `prices`, `order_items`). -/
def oceanForbiddenWarn (input : OceanInput) (r : VRX) : VRX :=
  [("vehicle", input.vehicle), ("prices", input.prices),
      ("order_items", input.order_items)].foldl
    (fun r e =>
      if e.2 then
        r.addWarning ("'" ++ e.1 ++ "' is not used in ocean visibility transport orders")
      else r) r

/-- The non-ocean-parameter warnings. -/
def oceanParamWarn (input : OceanInput) (r : VRX) : VRX :=
  input.parameters.foldl
    (fun r p =>
      if !(p.qualifier.getD "").startsWith "ocean." &&
          !(p.qualifier.getD "" = "visibility.ocean.product") then
        r.addWarning ("Parameter '" ++ p.qualifier.getD "" ++
          "' is not typically used in ocean visibility orders")
      else r) r

/-- `OceanVisibilityGenerator._perform_specific_validation`. -/
def oceanPerformSpecificValidation (input : OceanInput) (r : VRX) : VRX :=
  oceanParamWarn input
    (oceanForbiddenWarn input
      (oceanScacCheck input (oceanReqParamsCheck input (oceanStopsCheck input r))))

/-- `f"Please provide \x7bdescription\x7d (\x7bname\x7d)"`. -/
def promptFor (desc name : String) : String :=
  "Please provide " ++ desc ++ " (" ++ name ++ ")"

/-- Modelled from the spec: the description texts of the ocean parameter
configuration (`data/transport_parameters.json`, not under `src/`). -/
def oceanParamDesc : String → String
  | "ocean.scac.no" => "SCAC carrier code"
  | "ocean.bl.no" => "bill of lading number"
  | "ocean.container.no" => "container number"
  | "ocean.booking.no" => "booking number"
  | _ => ""

/-- Modelled from the spec: `generate_missing_field_prompts` for
ocean_visibility.  The transport-parameter configuration is not under
`src/`; per the generator (`required_fields = ["number"]`) the only
transport-level required field is `number`, the order level requires
nothing at prompt time, and the ocean section prompts for each required
ocean qualifier absent from the provided data. -/
def generateMissingFieldPromptsOcean (input : OceanInput) : List String :=
  (if input.number.isNone then [promptFor "transport order number" "number"] else []) ++
    (oceanParamsCfg.filter
      (fun p => p.required && (input.oceanKey p.name).isNone)).map
      (fun p => promptFor (oceanParamDesc p.name) p.name)

/-- Modelled from the spec: `suggest_optional_fields` for ocean_visibility
(no optional transport-level fields are configured for this type). -/
def oceanSuggestedOptional : List String := []

/-- `BaseGenerator.validate_input` specialised to the Ocean Visibility
generator: record the missing-field prompts (invalidating when non-empty),
record the optional suggestions, then run the type-specific validation. -/
def validateInputOcean (input : OceanInput) : VRX :=
  oceanPerformSpecificValidation input
    { is_valid := (generateMissingFieldPromptsOcean input).isEmpty
      errors := []
      warnings := []
      missing_required := generateMissingFieldPromptsOcean input
      suggested_optional := oceanSuggestedOptional }

/-- The result dictionary of a generator `generate_xml` call. -/
inductive GenResult : Type where
  | success (xml : String)
  | validationError (errors missing suggested : List String)
  | generationError (msg : String)
  deriving Repr, DecidableEq

def GenResult.isSuccess : GenResult → Bool
  | .success _ => true
  | _ => false

def GenResult.isValidationError : GenResult → Bool
  | .validationError _ _ _ => true
  | _ => false

def GenResult.errorList : GenResult → List String
  | .validationError e _ _ => e
  | _ => []

def GenResult.missingList : GenResult → List String
  | .validationError _ m _ => m
  | _ => []

/-- `OceanVisibilityGenerator.generate_xml`: on invalid input, return the
validation-error result and never assemble; `assemble` stands for the
entire successful path (template- and configuration-driven, outside the
scope of this claim — the theorem below holds for every such path). -/
def oceanGenerateXml (assemble : OceanInput → GenResult) (input : OceanInput) : GenResult :=
  if (validateInputOcean input).is_valid then assemble input
  else
    .validationError (validateInputOcean input).errors
      (validateInputOcean input).missing_required
      (validateInputOcean input).suggested_optional

/-- The errors contributed by the stop-presence check. -/
def oceanStopsErrs (input : OceanInput) : List String :=
  if (input.stops.getD []).length = 0 &&
      !(input.departure_location.isSome && input.arrival_location.isSome) then
    ["Ocean visibility requires either 2 stops OR departure_location and arrival_location data"]
  else if (input.stops.getD []).length > 0 && (input.stops.getD []).length ≠ 2 then
    ["Ocean visibility requires exactly 2 stops (Departure and Arrival)"]
  else []

/-- The errors contributed by the required-ocean-parameter loop. -/
def oceanReqErrs (input : OceanInput) : List String :=
  (requiredOceanParameters.filter (fun q => (input.oceanKey q).isNone)).map missingOceanMsg

/-- The errors contributed by the SCAC format check. -/
def oceanScacErrs (input : OceanInput) : List String :=
  if !(input.scac.getD "").isEmpty && (input.scac.getD "").length ≠ 4 then
    ["SCAC code must be exactly 4 characters"]
  else if !(input.scac.getD "").isEmpty && !scacDigitsAlpha (input.scac.getD "") then
    if !scacMatch (input.scac.getD "") then
      ["SCAC code must contain only uppercase letters and numbers"]
    else []
  else []

/-- The two warning components leave everything but `warnings` unchanged. -/
def warnExtendsX (f : VRX → VRX) : Prop :=
  ∀ r : VRX, ∃ w, f r = { r with warnings := r.warnings ++ w }

/-- An ocean input supplying everything but the bill-of-lading number. -/
def c6input : OceanInput :=
  { number := some "TO-1", scac := some "MAEU", container := some "CONT1" }

/-! ## Namespace tolerance across the validation passes -/

/-- A minimal transport_order element with bare (non-namespaced) tags. -/
def c7to : Elem :=
  ⟨"transport_order", [], none, [⟨"number", [], some "TO-1", []⟩]⟩

/-- A well-formed document whose elements all use bare tag names. -/
def c7doc : Elem := ⟨"transport_orders", [], none, [c7to]⟩

/-! ## Ocean Visibility parameter collection
(`OceanVisibilityGenerator.collect_all_parameters`, the base
`collect_all_parameters` and `ParameterCollector.collect_stops`) -/

/-- `OceanVisibilityGenerator._build_ocean_stops`. -/
def buildOceanStops (input : OceanInput) : List UserStop :=
  [{ id := some "Departure", index := some 0,
     location := some (input.departure_location.getD {}),
     date_time_period := some (input.departure_date.getD {}) },
   { id := some "Arrival", index := some 1,
     location := some (input.arrival_location.getD {}),
     date_time_period := some (input.arrival_date.getD {}) }]

/-- The input rewriting of `OceanVisibilityGenerator.collect_all_parameters`
before it delegates to the base collector: apply the fixed values, default
the order number, rebuild the two ocean stops when needed, then force the
loading/unloading stop-id lists. -/
def oceanModifyInput (input : OceanInput) : OceanInput :=
  let m := { input with
    scheduling_unit := some "Ocean Visibility",
    carrier_creditor_number := some "Ocean",
    status := some "NTO" }
  let m := if m.order_number.isNone then { m with order_number := some (m.number.getD "") } else m
  let m :=
    if (m.stops.isNone || (m.stops.getD []).length ≠ 2) &&
        m.departure_location.isSome && m.arrival_location.isSome then
      { m with stops := some (buildOceanStops m) }
    else m
  { m with loading_stop_ids := some ["Departure"], unloading_stop_ids := some ["Arrival"] }

/-- `ParameterCollector._process_location` (`.error` models the raised
`ValueError`). -/
def processLocation (loc : Location) : Except String Location :=
  if !optTruthy loc.company_name then
    .error "Required location field 'company_name' is missing"
  else if !optTruthy loc.city then
    .error "Required location field 'city' is missing"
  else if !optTruthy loc.country then
    .error "Required location field 'country' is missing"
  else if !countryMatch (loc.country.getD "") then
    .error ("Country code must be 2 uppercase letters, got: " ++ loc.country.getD "")
  else
    .ok { company_name := loc.company_name, city := loc.city, country := loc.country,
          street := if optTruthy loc.street then loc.street else none,
          zip := if optTruthy loc.zip then loc.zip else none,
          state := if optTruthy loc.state then loc.state else none,
          comment := if optTruthy loc.comment then loc.comment else none }

/-- `ParameterCollector._process_date_time_period`. -/
def processDateTimePeriod (p : Period) : Except String Period :=
  match p.start with
  | none => .error "Required date field 'start' is missing"
  | some s =>
    if !isoDatetimeMatch s then .error ("Invalid datetime format for 'start': " ++ s)
    else
      match p.end_ with
      | none => .error "Required date field 'end' is missing"
      | some e =>
        if !isoDatetimeMatch e then .error ("Invalid datetime format for 'end': " ++ e)
        else .ok { start := some s, end_ := some e, timezone := p.timezone }

/-- A processed stop of `ParameterCollector.collect_stops`. -/
structure CollectedStop where
  id : String
  index : Int
  location : Location
  date_time_period : Period
  deriving Repr, DecidableEq

/-- The enumeration loop of `ParameterCollector.collect_stops`. -/
def collectStopsGo : List UserStop → Nat → Except String (List CollectedStop)
  | [], _ => .ok []
  | s :: rest, i =>
    match processLocation (s.location.getD {}) with
    | .error e => .error e
    | .ok loc =>
      match processDateTimePeriod (s.date_time_period.getD {}) with
      | .error e => .error e
      | .ok per =>
        match collectStopsGo rest (i + 1) with
        | .error e => .error e
        | .ok tail =>
          .ok ({ id := s.id.getD ("stop_" ++ toString (i + 1)),
                 index := s.index.getD (Int.ofNat i),
                 location := loc, date_time_period := per } :: tail)

/-- `ParameterCollector.collect_stops`. -/
def collectStops (input : OceanInput) : Except String (List CollectedStop) :=
  collectStopsGo (input.stops.getD []) 0

/-- The order_details section of the collected parameters. -/
structure CollectedOrderDetails where
  order_number : Option String := none
  loading_stop_ids : Option (List String) := none
  unloading_stop_ids : Option (List String) := none
  deriving Repr, DecidableEq

/-- Modelled from the spec: `ParameterCollector.collect_order_details` for
ocean_visibility.  The order-parameter configuration lives in data files not
under `src/`; per the spec's generated-document shape
(order_details\x7bnumber, loading_stop_ids, unloading_stop_ids\x7d) the
order-level fields `order_number`, `loading_stop_ids` and
`unloading_stop_ids` copy through from the input when present. -/
def collectOrderDetailsOcean (input : OceanInput) : CollectedOrderDetails :=
  { order_number := input.order_number,
    loading_stop_ids := input.loading_stop_ids,
    unloading_stop_ids := input.unloading_stop_ids }

/-- A processed custom parameter of
`ParameterCollector.collect_custom_parameters`. -/
structure CollectedParam where
  qualifier : String
  value : String
  shipper_visibility : Option String := none
  export_to_carrier : Option String := none
  deriving Repr, DecidableEq

/-- `ParameterCollector.collect_custom_parameters`. -/
def collectCustomParameters (input : OceanInput) : List CollectedParam :=
  input.parameters.filterMap (fun p =>
    if optTruthy p.qualifier then
      some { qualifier := p.qualifier.getD "", value := p.value.getD "",
             shipper_visibility := p.shipper_visibility,
             export_to_carrier := p.export_to_carrier }
    else none)

/-- The dictionary built by `BaseGenerator.collect_all_parameters`. -/
structure Collected where
  transport_info : List (String × String)
  order_details : CollectedOrderDetails
  stops : List CollectedStop
  custom_parameters : List CollectedParam
  deriving Repr, DecidableEq

/-- `BaseGenerator.collect_all_parameters`; `collectTI` stands for
`collect_basic_transport_info` (configuration- and business-rule-driven;
the claim below holds for every such collector). -/
def baseCollectAllParameters
    (collectTI : OceanInput → Except String (List (String × String)))
    (input : OceanInput) : Except String Collected :=
  match collectTI input with
  | .error e => .error e
  | .ok ti =>
    match collectStops input with
    | .error e => .error e
    | .ok st =>
      .ok { transport_info := ti, order_details := collectOrderDetailsOcean input,
            stops := st, custom_parameters := collectCustomParameters input }

/-- `OceanVisibilityGenerator.collect_all_parameters`. -/
def oceanCollectAllParameters
    (collectTI : OceanInput → Except String (List (String × String)))
    (input : OceanInput) : Except String Collected :=
  baseCollectAllParameters collectTI (oceanModifyInput input)

/-- A two-stop ocean input whose stop ids are ports, not the forced
"Departure"/"Arrival". -/
def c10loc : Location :=
  { company_name := some "ACME", city := some "Hamburg", country := some "DE" }

def c10per : Period :=
  { start := some "2024-01-01T00:00:00Z", end_ := some "2024-01-02T00:00:00Z" }

def c10s1 : UserStop :=
  { id := some "PortA", location := some c10loc, date_time_period := some c10per }

def c10s2 : UserStop :=
  { id := some "PortB", location := some c10loc, date_time_period := some c10per }

def c10input : OceanInput :=
  { number := some "TO-9", stops := some [c10s1, c10s2],
    loading_stop_ids := some ["PortA"], unloading_stop_ids := some ["PortB"],
    scac := some "MAEU", bl := some "BL1", container := some "C1" }

def c10collected : Collected :=
  { transport_info := [],
    order_details := { order_number := some "TO-9",
                       loading_stop_ids := some ["Departure"],
                       unloading_stop_ids := some ["Arrival"] },
    stops := [{ id := "PortA", index := 0, location := c10loc, date_time_period := c10per },
              { id := "PortB", index := 1, location := c10loc, date_time_period := c10per }],
    custom_parameters := [] }

theorem VR.init_inv : VR.init.Inv := rfl

theorem VR.addError_inv (r : VR) (m : String) : (r.addError m).Inv := by
  simp [VR.Inv, VR.addError]

theorem VR.addWarning_inv (r : VR) (m : String) (h : r.Inv) :
    (r.addWarning m).Inv := h

theorem foldl_inv {α : Type _} (step : VR → α → VR)
    (hstep : ∀ r a, r.Inv → (step r a).Inv) :
    ∀ (l : List α) (r : VR), r.Inv → (l.foldl step r).Inv := by
  intro l
  induction l with
  | nil => intro r h; exact h
  | cons a t ih => intro r h; exact ih (step r a) (hstep r a h)

theorem validateLocationStructure_inv (location : Elem) (n : Nat) (r : VR) (h : r.Inv) :
    (validateLocationStructure location n r).Inv := by
  unfold validateLocationStructure
  have h1 : (["company_name", "city", "country"].foldl
      (fun r name =>
        match pyOrElem (location.findChild (nsTag name)) (location.findChild name) with
        | none =>
          r.addError ("Stop " ++ toString n ++ ": location missing required element: " ++ name)
        | some el =>
          if textTruthy el.text then r
          else r.addError ("Stop " ++ toString n ++
            ": location missing required element: " ++ name)) r).Inv := by
    apply foldl_inv _ _ _ _ h
    intro r a hr
    split
    · exact VR.addError_inv _ _
    · split
      · exact hr
      · exact VR.addError_inv _ _
  split
  · exact h1
  · split
    · exact h1
    · split
      · exact h1
      · split
        · exact h1
        · exact VR.addError_inv _ _

theorem checkDatetimeElem_inv (el? : Option Elem) (m b : String) (r : VR) (h : r.Inv) :
    (checkDatetimeElem el? m b r).Inv := by
  unfold checkDatetimeElem
  split
  · exact VR.addError_inv _ _
  · split
    · exact VR.addError_inv _ _
    · split
      · exact VR.addError_inv _ _
      · split
        · exact h
        · exact VR.addError_inv _ _

theorem validateDateTimePeriod_inv (period : Elem) (n : Nat) (r : VR) (h : r.Inv) :
    (validateDateTimePeriod period n r).Inv := by
  unfold validateDateTimePeriod
  exact checkDatetimeElem_inv _ _ _ _ (checkDatetimeElem_inv _ _ _ _ h)

theorem stopIdCheck_inv (i : Nat) (ids : List String) (stopId : Option Elem) (r : VR)
    (h : r.Inv) : (stopIdCheck i ids stopId r).2.Inv := by
  unfold stopIdCheck
  split
  · exact VR.addError_inv _ _
  · split
    · exact VR.addError_inv _ _
    · split
      · exact VR.addError_inv _ _
      · split
        · exact VR.addError_inv _ _
        · exact h

theorem stopIndexCheck_inv (i : Nat) (stopIndex : Option Elem) (r : VR) (h : r.Inv) :
    (stopIndexCheck i stopIndex r).Inv := by
  unfold stopIndexCheck
  split
  · exact VR.addError_inv _ _
  · exact h

theorem stopLocationCheck_inv (i : Nat) (location : Option Elem) (r : VR) (h : r.Inv) :
    (stopLocationCheck i location r).Inv := by
  unfold stopLocationCheck
  split
  · exact VR.addError_inv _ _
  · exact validateLocationStructure_inv _ _ _ h

theorem stopPeriodCheck_inv (i : Nat) (dtp : Option Elem) (r : VR) (h : r.Inv) :
    (stopPeriodCheck i dtp r).Inv := by
  unfold stopPeriodCheck
  split
  · exact VR.addError_inv _ _
  · exact validateDateTimePeriod_inv _ _ _ h

theorem validateStopsGo_inv :
    ∀ (stops : List Elem) (i : Nat) (ids : List String) (r : VR), r.Inv →
      (validateStopsGo i ids stops r).Inv := by
  intro stops
  induction stops with
  | nil => intro i ids r h; simpa [validateStopsGo] using h
  | cons s rest ih =>
    intro i ids r h
    unfold validateStopsGo
    exact ih _ _ _
      (stopPeriodCheck_inv _ _ _
        (stopLocationCheck_inv _ _ _
          (stopIndexCheck_inv _ _ _ (stopIdCheck_inv _ _ _ _ h))))

theorem validateStops_inv (stops : List Elem) (r : VR) (h : r.Inv) :
    (validateStops stops r).Inv :=
  validateStopsGo_inv stops 0 [] r h

theorem loadingIdsCheck_inv (o : Option Elem) (r : VR) (h : r.Inv) :
    (loadingIdsCheck o r).Inv := by
  unfold loadingIdsCheck
  rcases o with _ | l
  · exact h
  · dsimp only
    split
    · exact VR.addError_inv _ _
    · exact h

theorem unloadingIdsCheck_inv (o : Option Elem) (r : VR) (h : r.Inv) :
    (unloadingIdsCheck o r).Inv := by
  unfold unloadingIdsCheck
  rcases o with _ | u
  · exact h
  · dsimp only
    split
    · exact VR.addError_inv _ _
    · exact h

theorem validateStopIdStructure_inv (od : Elem) (r : VR) (h : r.Inv) :
    (validateStopIdStructure od r).Inv :=
  unloadingIdsCheck_inv _ _ (loadingIdsCheck_inv _ _ h)

theorem validateOrderDetails_inv (od : Elem) (r : VR) (h : r.Inv) :
    (validateOrderDetails od r).Inv := by
  unfold validateOrderDetails
  apply validateStopIdStructure_inv
  apply foldl_inv _ _ _ _ h
  intro r a hr
  split
  · exact VR.addError_inv _ _
  · exact hr

theorem validateRequiredElements_inv (t : Elem) (r : VR) (h : r.Inv) :
    (validateRequiredElements t r).Inv := by
  unfold validateRequiredElements
  apply foldl_inv _ _ _ _ h
  intro r a hr
  split
  · exact VR.addError_inv _ _
  · split
    · exact VR.addError_inv _ _
    · exact hr

theorem ordersStructCheck_inv (t : Elem) (r : VR) (h : r.Inv) :
    (ordersStructCheck t r).Inv := by
  unfold ordersStructCheck
  split
  · exact h
  · split
    · exact VR.addError_inv _ _
    · exact validateOrderDetails_inv _ _ h

theorem stopsStructCheck_inv (t : Elem) (r : VR) (h : r.Inv) :
    (stopsStructCheck t r).Inv := by
  unfold stopsStructCheck
  split
  · exact h
  · split
    · exact VR.addError_inv _ _
    · exact validateStops_inv _ _ h

theorem validateElementStructure_inv (t : Elem) (r : VR) (h : r.Inv) :
    (validateElementStructure t r).Inv :=
  stopsStructCheck_inv _ _ (ordersStructCheck_inv _ _ h)

theorem namespaceCheck_inv (root : Elem) (r : VR) (h : r.Inv) :
    (namespaceCheck root r).Inv := by
  unfold namespaceCheck
  split
  · exact h
  · exact VR.addError_inv _ _

theorem rootTagCheck_inv (root : Elem) (r : VR) (h : r.Inv) :
    (rootTagCheck root r).Inv := by
  unfold rootTagCheck
  split
  · exact h
  · exact VR.addError_inv _ _

theorem validateXmlStructure_inv (p : Except String Elem) :
    (validateXmlStructure p).Inv := by
  unfold validateXmlStructure
  split
  · exact VR.addError_inv _ _
  · split
    · exact VR.addError_inv _ _
    · exact validateElementStructure_inv _ _
        (validateRequiredElements_inv _ _
          (rootTagCheck_inv _ _ (namespaceCheck_inv _ _ VR.init_inv)))

theorem lengthChecks_inv (f v : String) (rules : FieldRule) (r : VR) (h : r.Inv) :
    (lengthChecks f v rules r).Inv := by
  unfold lengthChecks
  have h1 : (match rules.min_length with
      | none => r
      | some m =>
        if m ≠ 0 && v.length < m then
          r.addError ("Field '" ++ f ++ "' is too short (minimum " ++
            toString m ++ " characters)")
        else r).Inv := by
    rcases rules.min_length with _ | m
    · exact h
    · dsimp only
      split
      · exact VR.addError_inv _ _
      · exact h
  rcases rules.max_length with _ | m
  · exact h1
  · dsimp only
    split
    · exact VR.addError_inv _ _
    · exact h1

theorem patternCheck_inv (pm : String → String → Bool) (f v : String) (rules : FieldRule)
    (r : VR) (h : r.Inv) : (patternCheck pm f v rules r).Inv := by
  unfold patternCheck
  rcases rules.pattern with _ | p
  · exact h
  · dsimp only
    split
    · exact VR.addError_inv _ _
    · exact h

theorem allowedValuesCheck_inv (f v : String) (rules : FieldRule) (r : VR) (h : r.Inv) :
    (allowedValuesCheck f v rules r).Inv := by
  unfold allowedValuesCheck
  rcases rules.allowed_values with _ | l
  · exact h
  · dsimp only
    split
    · exact VR.addError_inv _ _
    · exact h

theorem applyFieldValidation_inv (fp : String → Bool) (pm : String → String → Bool)
    (f v : String) (rules : FieldRule) (r : VR) (h : r.Inv) :
    (applyFieldValidation fp pm f v rules r).Inv := by
  unfold applyFieldValidation
  split
  · exact VR.addError_inv _ _
  · split
    · exact VR.addError_inv _ _
    · exact allowedValuesCheck_inv _ _ _ _
        (patternCheck_inv _ _ _ _ _ (lengthChecks_inv _ _ _ _ h))

theorem validateTransportOrderFields_inv (fp : String → Bool) (pm : String → String → Bool)
    (fieldRules : List (String × FieldRule)) (t : Elem) (r : VR) (h : r.Inv) :
    (validateTransportOrderFields fp pm fieldRules t r).Inv := by
  unfold validateTransportOrderFields
  apply foldl_inv _ _ _ _ h
  intro r a hr
  split
  · exact hr
  · split
    · exact hr
    · split
      · exact hr
      · exact applyFieldValidation_inv _ _ _ _ _ _ hr

theorem paramScacCheck_inv (p : Elem) (r : VR) (h : r.Inv) : (paramScacCheck p r).Inv := by
  unfold paramScacCheck
  split
  · exact h
  · split
    · exact h
    · split
      · exact h
      · split
        · exact h
        · split
          · exact h
          · split
            · exact VR.addError_inv _ _
            · exact h

theorem validateParameterFormats_inv (t : Elem) (r : VR) (h : r.Inv) :
    (validateParameterFormats t r).Inv := by
  unfold validateParameterFormats
  split
  · exact h
  · exact foldl_inv _ (fun r p => paramScacCheck_inv p r) _ _ h

theorem validateFieldFormats_inv (fp : String → Bool) (pm : String → String → Bool)
    (fieldRules : List (String × FieldRule)) (p : Except String Elem) :
    (validateFieldFormats fp pm fieldRules p).Inv := by
  unfold validateFieldFormats
  split
  · exact VR.addError_inv _ _
  · split
    · exact VR.addError_inv _ _
    · exact validateParameterFormats_inv _ _
        (validateTransportOrderFields_inv _ _ _ _ _ VR.init_inv)

theorem validateStopIdReferences_inv (od : Elem) (stopIds : List String) (r : VR)
    (h : r.Inv) : (validateStopIdReferences od stopIds r).Inv := by
  unfold validateStopIdReferences
  have step : ∀ (msgPre msgPost : String), ∀ (r : VR) (lid : Elem), r.Inv →
      (match Elem.text lid with
        | none => r
        | some t =>
          if !String.isEmpty t && t ∉ stopIds then
            r.addError (msgPre ++ t ++ msgPost)
          else r).Inv := by
    intro _ _ r lid hr
    split
    · exact hr
    · split
      · exact VR.addError_inv _ _
      · exact hr
  have h1 : (match od.findChild "loading_stop_ids" with
      | none => r
      | some loading =>
        (loading.findAll "loading_stop_id").foldl
          (fun (r : VR) (lid : Elem) =>
            match Elem.text lid with
            | none => r
            | some t =>
              if !String.isEmpty t && t ∉ stopIds then
                r.addError ("Loading stop ID '" ++ t ++ "' does not reference an existing stop")
              else r) r).Inv := by
    rcases od.findChild "loading_stop_ids" with _ | loading
    · exact h
    · exact foldl_inv _ (step "Loading stop ID '" "' does not reference an existing stop") _ _ h
  rcases od.findChild "unloading_stop_ids" with _ | unloading
  · exact h1
  · exact foldl_inv _ (step "Unloading stop ID '" "' does not reference an existing stop") _ _ h1

theorem validateStopReferences_inv (p : Except String Elem) :
    (validateStopReferences p).Inv := by
  unfold validateStopReferences
  split
  · exact VR.addError_inv _ _
  · split
    · exact VR.addError_inv _ _
    · split
      · exact VR.init_inv
      · split
        · exact VR.init_inv
        · exact validateStopIdReferences_inv _ _ _ VR.init_inv

theorem minStopsCheck_inv (ty : String) (rules : TypeRules) (n : Nat) (r : VR) (h : r.Inv) :
    (minStopsCheck ty rules n r).Inv := by
  unfold minStopsCheck
  split
  · exact VR.addError_inv _ _
  · exact h

theorem maxStopsCheck_inv (ty : String) (rules : TypeRules) (n : Nat) (r : VR) (h : r.Inv) :
    (maxStopsCheck ty rules n r).Inv := by
  unfold maxStopsCheck
  split
  · exact h
  · split
    · exact VR.addError_inv _ _
    · exact h

theorem validateStopCounts_inv (t : Elem) (ty : String) (rules : TypeRules) (r : VR)
    (h : r.Inv) : (validateStopCounts t ty rules r).Inv := by
  unfold validateStopCounts
  split
  · exact h
  · exact maxStopsCheck_inv _ _ _ _ (minStopsCheck_inv _ _ _ _ h)

theorem validateOceanFixedValues_inv (t : Elem) (rules : TypeRules) (r : VR) (h : r.Inv) :
    (validateOceanFixedValues t rules r).Inv := by
  unfold validateOceanFixedValues
  apply foldl_inv _ _ _ _ h
  intro r a hr
  split
  · exact VR.addError_inv _ _
  · split
    · exact hr
    · exact VR.addError_inv _ _

theorem forbiddenQualifiersCheck_inv (t : Elem) (ty : String) (forbidden : List String)
    (r : VR) (h : r.Inv) : (forbiddenQualifiersCheck t ty forbidden r).Inv := by
  unfold forbiddenQualifiersCheck
  split
  · exact h
  · apply foldl_inv _ _ _ _ h
    intro r a hr
    split
    · exact hr
    · split
      · exact VR.addError_inv _ _
      · exact hr

theorem validateRequiredParametersB_inv (t : Elem) (requiredParams : List String) (r : VR)
    (h : r.Inv) : (validateRequiredParametersB t requiredParams r).Inv := by
  unfold validateRequiredParametersB
  split
  · split
    · exact h
    · exact VR.addError_inv _ _
  · apply foldl_inv _ _ _ _ h
    intro r a hr
    split
    · exact hr
    · exact VR.addError_inv _ _

theorem validateMandatoryFixedParameters_inv (t : Elem) (mf : List (String × String)) (r : VR)
    (h : r.Inv) : (validateMandatoryFixedParameters t mf r).Inv := by
  unfold validateMandatoryFixedParameters
  split
  · exact h
  · apply foldl_inv _ _ _ _ h
    intro r a hr
    split
    · exact hr
    · split
      · exact hr
      · split
        · exact VR.addError_inv _ _
        · split
          · exact hr
          · exact VR.addError_inv _ _

theorem validateParameterRestrictions_inv (t : Elem) (ty : String) (rules : TypeRules)
    (r : VR) (h : r.Inv) : (validateParameterRestrictions t ty rules r).Inv := by
  unfold validateParameterRestrictions
  apply validateMandatoryFixedParameters_inv
  split
  · exact validateRequiredParametersB_inv _ _ _ (forbiddenQualifiersCheck_inv _ _ _ _ h)
  · exact forbiddenQualifiersCheck_inv _ _ _ _ h

theorem itemRequiredFieldsCheck_inv (itemRules : OrderItemRules) (i : Nat) (item : Elem)
    (r : VR) (h : r.Inv) : (itemRequiredFieldsCheck itemRules i item r).Inv := by
  unfold itemRequiredFieldsCheck
  apply foldl_inv _ _ _ _ h
  intro r a hr
  split
  · exact VR.addError_inv _ _
  · split
    · exact hr
    · exact VR.addError_inv _ _

theorem itemQuantitiesCheck_inv (itemRules : OrderItemRules) (i : Nat) (item : Elem)
    (r : VR) (h : r.Inv) : (itemQuantitiesCheck itemRules i item r).Inv := by
  unfold itemQuantitiesCheck
  split
  · exact h
  · apply foldl_inv _ _ _ _ h
    intro r a hr
    split
    · exact hr
    · exact VR.addWarning_inv _ _ hr

theorem itemParametersCheck_inv (itemRules : OrderItemRules) (i : Nat) (item : Elem)
    (r : VR) (h : r.Inv) : (itemParametersCheck itemRules i item r).Inv := by
  unfold itemParametersCheck
  split
  · exact h
  · apply foldl_inv _ _ _ _ h
    intro r a hr
    split
    · exact hr
    · exact VR.addWarning_inv _ _ hr

theorem orderItemCheck_inv (itemRules : OrderItemRules) (i : Nat) (item : Elem) (r : VR)
    (h : r.Inv) : (orderItemCheck itemRules i item r).Inv :=
  itemParametersCheck_inv _ _ _ _
    (itemQuantitiesCheck_inv _ _ _ _ (itemRequiredFieldsCheck_inv _ _ _ _ h))

theorem orderItemsGo_inv (itemRules : OrderItemRules) :
    ∀ (items : List Elem) (i : Nat) (r : VR), r.Inv → (orderItemsGo itemRules i items r).Inv := by
  intro items
  induction items with
  | nil => intro i r h; simpa [orderItemsGo] using h
  | cons item rest ih =>
    intro i r h
    unfold orderItemsGo
    exact ih _ _ (orderItemCheck_inv _ _ _ _ h)

theorem validateOrderItemsRules_inv (t : Elem) (rules : TypeRules) (r : VR) (h : r.Inv) :
    (validateOrderItemsRules t rules r).Inv := by
  unfold validateOrderItemsRules
  split
  · exact h
  · split
    · exact h
    · split
      · exact h
      · exact orderItemsGo_inv _ _ _ _ h

theorem carrierCreditorRequiredCheck_inv (t : Elem) (rules : TypeRules) (r : VR) (h : r.Inv) :
    (carrierCreditorRequiredCheck t rules r).Inv := by
  unfold carrierCreditorRequiredCheck
  split
  · split
    · exact VR.addError_inv _ _
    · split
      · exact h
      · exact VR.addError_inv _ _
  · exact h

theorem validateComplexRoadRules_inv (t : Elem) (rules : TypeRules) (r : VR) (h : r.Inv) :
    (validateComplexRoadRules t rules r).Inv := by
  unfold validateComplexRoadRules
  split
  · exact validateOrderItemsRules_inv _ _ _ (carrierCreditorRequiredCheck_inv _ _ _ h)
  · exact carrierCreditorRequiredCheck_inv _ _ _ h

theorem requiredElementsCheckB_inv (t : Elem) (ty : String) (rules : TypeRules) (r : VR)
    (h : r.Inv) : (requiredElementsCheckB t ty rules r).Inv := by
  unfold requiredElementsCheckB
  apply foldl_inv _ _ _ _ h
  intro r a hr
  split
  · exact VR.addError_inv _ _
  · exact hr

theorem oceanFixedGate_inv (t : Elem) (ty : String) (rules : TypeRules) (r : VR)
    (h : r.Inv) : (oceanFixedGate t ty rules r).Inv := by
  unfold oceanFixedGate
  split
  · exact validateOceanFixedValues_inv _ _ _ h
  · exact h

theorem complexRoadGate_inv (t : Elem) (ty : String) (rules : TypeRules) (r : VR)
    (h : r.Inv) : (complexRoadGate t ty rules r).Inv := by
  unfold complexRoadGate
  split
  · exact validateComplexRoadRules_inv _ _ _ h
  · exact h

theorem validateTransportSpecificRules_inv (t : Elem) (ty : String) (rules : TypeRules)
    (r : VR) (h : r.Inv) : (validateTransportSpecificRules t ty rules r).Inv :=
  complexRoadGate_inv _ _ _ _
    (validateParameterRestrictions_inv _ _ _ _
      (oceanFixedGate_inv _ _ _ _
        (validateStopCounts_inv _ _ _ _ (requiredElementsCheckB_inv _ _ _ _ h))))

theorem validateTransportTypeRules_inv (typeRules : String → Option TypeRules)
    (p : Except String Elem) (ty : String) : (validateTransportTypeRules typeRules p ty).Inv := by
  unfold validateTransportTypeRules
  split
  · exact VR.addError_inv _ _
  · split
    · exact VR.addError_inv _ _
    · split
      · exact VR.init_inv
      · exact validateTransportSpecificRules_inv _ _ _ _ VR.init_inv

theorem validateCarrierCreditorConsistency_inv (t : Elem) (r : VR) (h : r.Inv) :
    (validateCarrierCreditorConsistency t r).Inv := by
  unfold validateCarrierCreditorConsistency
  split
  · exact h
  · split
    · exact h
    · split
      · exact h
      · split
        · exact h
        · apply foldl_inv _ _ _ _ h
          intro r a hr
          split
          · split
            · exact hr
            · split
              · exact hr
              · exact VR.addWarning_inv _ _ hr
          · exact hr

theorem validateDateSequence_inv (fromIso : String → Option Int) (t : Elem) (r : VR)
    (h : r.Inv) : (validateDateSequence fromIso t r).Inv := by
  unfold validateDateSequence
  split
  · exact VR.addWarning_inv _ _ h
  · exact h

theorem indexLoop_inv (entries : List (Option Int)) (r : VR) (h : r.Inv) :
    (indexLoop entries r).2.Inv := by
  unfold indexLoop
  have : ∀ (acc : List Int × VR), acc.2.Inv →
      (entries.foldl
        (fun acc e =>
          match e with
          | some n => (acc.1 ++ [n], acc.2)
          | none => (acc.1, acc.2.addError "Stop index must be a number")) acc).2.Inv := by
    induction entries with
    | nil => intro acc hacc; exact hacc
    | cons e rest ih =>
      intro acc hacc
      apply ih
      rcases e with _ | n
      · exact VR.addError_inv _ _
      · exact hacc
  exact this ([], r) h

theorem stopIndexTail_inv (indices : List Int) (r : VR) (h : r.Inv) :
    (stopIndexTail indices r).Inv := by
  unfold stopIndexTail seqIndexCheck startIndexCheck
  split
  · exact h
  · have h1 : VR.Inv (match (List.insertionSort (fun a b => a ≤ b) indices).head? with
        | none => r
        | some hd => if hd = 0 then r else r.addError "Stop indices should start from 0") := by
      split
      · exact h
      · split
        · exact h
        · exact VR.addError_inv _ _
    split
    · exact VR.addError_inv _ _
    · exact h1

theorem validateStopIndexSequence_inv (t : Elem) (r : VR) (h : r.Inv) :
    (validateStopIndexSequence t r).Inv := by
  unfold validateStopIndexSequence
  exact stopIndexTail_inv _ _ (indexLoop_inv _ _ h)

theorem validateCrossFieldConsistency_inv (fromIso : String → Option Int)
    (p : Except String Elem) : (validateCrossFieldConsistency fromIso p).Inv := by
  unfold validateCrossFieldConsistency
  split
  · exact VR.addError_inv _ _
  · split
    · exact VR.addError_inv _ _
    · exact validateStopIndexSequence_inv _ _
        (validateDateSequence_inv _ _ _ (validateCarrierCreditorConsistency_inv _ _ VR.init_inv))

theorem oceanParamValueCheck_inv (p : Elem) (r : VR) (h : r.Inv) :
    (oceanParamValueCheck p r).Inv := by
  unfold oceanParamValueCheck
  split
  · exact h
  · split
    · split
      · exact VR.addError_inv _ _
      · split
        · exact h
        · exact VR.addError_inv _ _
    · split
      · split
        · exact h
        · split
          · exact h
          · split
            · exact h
            · split
              · exact h
              · exact VR.addError_inv _ _
      · exact h

theorem validateOceanCompleteness_inv (p : Except String Elem) :
    (validateOceanCompleteness p).Inv := by
  unfold validateOceanCompleteness
  split
  · exact VR.addError_inv _ _
  · split
    · exact VR.addError_inv _ _
    · split
      · exact VR.init_inv
      · split
        · split
          · exact VR.addError_inv _ _
          · apply foldl_inv _ (fun r p => oceanParamValueCheck_inv p r)
            apply foldl_inv _ _ _ _ VR.init_inv
            intro r a hr
            split
            · exact hr
            · exact VR.addError_inv _ _
        · exact VR.init_inv

theorem aggMerge_inv (st sub : VR) (h : st.Inv) (hsub : sub.Inv) : (aggMerge st sub).Inv := by
  unfold aggMerge
  split
  · exact h
  · rename_i hv
    have hne : sub.errors ≠ [] := by
      intro hc
      exact hv (hsub.trans (by simp [hc]))
    show false = (st.errors ++ sub.errors).isEmpty
    cases hl : st.errors ++ sub.errors with
    | nil => exact absurd (List.append_eq_nil.mp hl).2 hne
    | cons x xs => rfl

theorem aggFive_inv (floatParses : String → Bool) (patternMatch : String → String → Bool)
    (fieldRules : List (String × FieldRule)) (typeRules : String → Option TypeRules)
    (fromIso : String → Option Int) (p : Except String Elem) (ty : String) :
    (aggFive floatParses patternMatch fieldRules typeRules fromIso p ty).Inv :=
  aggMerge_inv _ _
    (aggMerge_inv _ _
      (aggMerge_inv _ _
        (aggMerge_inv _ _
          (aggMerge_inv _ _ VR.init_inv (validateXmlStructure_inv p))
          (validateFieldFormats_inv _ _ _ p))
        (validateStopReferences_inv p))
      (validateTransportTypeRules_inv _ p ty))
    (validateCrossFieldConsistency_inv _ p)

theorem aggFinal_inv (floatParses : String → Bool) (patternMatch : String → String → Bool)
    (fieldRules : List (String × FieldRule)) (typeRules : String → Option TypeRules)
    (fromIso : String → Option Int) (p : Except String Elem) (ty : String) :
    (aggFinal floatParses patternMatch fieldRules typeRules fromIso p ty).Inv := by
  unfold aggFinal
  split
  · exact aggMerge_inv _ _ (aggFive_inv _ _ _ _ _ _ _) (validateOceanCompleteness_inv p)
  · exact aggFive_inv _ _ _ _ _ _ _

theorem validateTransportOrderXml_inv (floatParses : String → Bool)
    (patternMatch : String → String → Bool) (fieldRules : List (String × FieldRule))
    (typeRules : String → Option TypeRules) (fromIso : String → Option Int)
    (p : Except String Elem) (ty : String) :
    (validateTransportOrderXml floatParses patternMatch fieldRules typeRules
        fromIso p ty).is_valid =
      (validateTransportOrderXml floatParses patternMatch fieldRules typeRules
        fromIso p ty).errors.isEmpty :=
  aggFinal_inv floatParses patternMatch fieldRules typeRules fromIso p ty

theorem warnExtends_self : warnExtends (fun r => r) :=
  fun _ => ⟨[], by simp⟩

theorem warnExtends_addWarning (m : String) : warnExtends (fun r => r.addWarning m) :=
  fun _ => ⟨[m], rfl⟩

theorem warnExtends_comp {f g : VR → VR} (hf : warnExtends f) (hg : warnExtends g) :
    warnExtends (fun r => g (f r)) := by
  intro r
  obtain ⟨w1, hw1⟩ := hf r
  obtain ⟨w2, hw2⟩ := hg (f r)
  refine ⟨w1 ++ w2, ?_⟩
  show g (f r) = _
  rw [hw2, hw1]
  simp

theorem warnExtends_foldl {α : Type _} (step : VR → α → VR)
    (hstep : ∀ a, warnExtends (fun r => step r a)) :
    ∀ l : List α, warnExtends (fun r => l.foldl step r) := by
  intro l
  induction l with
  | nil => exact fun r => ⟨[], by simp⟩
  | cons a t ih =>
    intro r
    obtain ⟨w1, hw1⟩ := hstep a r
    obtain ⟨w2, hw2⟩ := ih (step r a)
    refine ⟨w1 ++ w2, ?_⟩
    show (t.foldl step (step r a)) = _
    simp only at hw1 hw2
    rw [hw2, hw1]
    simp

/-- The per-parameter step of `_validate_carrier_creditor_consistency`. -/
theorem warnExtends_ccStep (carrier : String) (p : Elem) :
    warnExtends (fun r =>
      if p.attr "qualifier" = some "custom.preassignedCarrierCreditorNumber" then
        match p.findChild "value" with
        | none => r
        | some ve =>
          if ve.text = some carrier then r
          else r.addWarning
            "Carrier creditor number inconsistency between transport and order levels"
      else r) := by
  intro r
  split
  · split
    · exact ⟨[], by simp⟩
    · split
      · exact ⟨[], by simp⟩
      · exact ⟨_, rfl⟩
  · exact ⟨[], by simp⟩

theorem warnExtends_carrierCreditor (t : Elem) :
    warnExtends (validateCarrierCreditorConsistency t) := by
  intro r
  unfold validateCarrierCreditorConsistency
  split
  · exact ⟨[], by simp⟩
  · split
    · exact ⟨[], by simp⟩
    · split
      · exact ⟨[], by simp⟩
      · split
        · exact ⟨[], by simp⟩
        · exact warnExtends_foldl _ (warnExtends_ccStep _) _ r

theorem warnExtends_dateSequence (fromIso : String → Option Int) (t : Elem) :
    warnExtends (validateDateSequence fromIso t) := by
  intro r
  unfold validateDateSequence
  split
  · exact ⟨_, rfl⟩
  · exact ⟨[], by simp⟩

/-- A message survives a warning-extending fold once some list element
triggers it. -/
theorem mem_warn_foldl {α : Type _} (step : VR → α → VR)
    (hmono : ∀ a, warnExtends (fun r => step r a)) (l : List α) (a : α) (ha : a ∈ l)
    (msg : String) (htrig : ∀ r, msg ∈ (step r a).warnings) (r : VR) :
    msg ∈ (l.foldl step r).warnings := by
  obtain ⟨s, t2, rfl⟩ := List.append_of_mem ha
  rw [List.foldl_append]
  show msg ∈ (List.foldl step (step (List.foldl step r s) a) t2).warnings
  obtain ⟨w, hw⟩ := warnExtends_foldl step hmono t2 (step (List.foldl step r s) a)
  simp only at hw
  rw [hw]
  exact List.mem_append_left _ (htrig _)

/-- The stop-index collection on an all-parsed entry list returns exactly
those indices and leaves the result unchanged. -/
theorem indexLoop_all_some (l : List Int) (r : VR) :
    indexLoop (l.map some) r = (l, r) := by
  suffices h : ∀ (acc : List Int),
      (l.map some).foldl
        (fun acc e =>
          match e with
          | some n => (acc.1 ++ [n], acc.2)
          | none => (acc.1, acc.2.addError "Stop index must be a number")) (acc, r) =
        (acc ++ l, r) by
    simpa [indexLoop] using h []
  induction l with
  | nil => intro acc; simp
  | cons n t ih =>
    intro acc
    simp only [List.map_cons, List.foldl_cons]
    rw [ih (acc ++ [n])]
    simp

/-- The outcome of `_validate_stop_index_sequence` on a document whose stop
index entries all parse. -/
theorem validateStopIndexSequence_parsed (t : Elem) (r : VR) (l : List Int)
    (h : stopIndexEntries t = l.map some) :
    validateStopIndexSequence t r = stopIndexTail l r := by
  unfold validateStopIndexSequence
  rw [h, indexLoop_all_some]

/-- Sorted indices of the shape `[0, 1, 3]` produce exactly the
sequentiality error. -/
theorem stopIndexTail_013 (a b c : Int) (r : VR) (hperm : [a, b, c].Perm [0, 1, 3]) :
    stopIndexTail [a, b, c] r = r.addError "Stop indices should be sequential" := by
  have hsort : List.insertionSort (α := Int) (· ≤ ·) [a, b, c] = [0, 1, 3] :=
    List.eq_of_perm_of_sorted ((List.perm_insertionSort _ _).trans hperm)
      (List.sorted_insertionSort _ _) (by decide)
  unfold stopIndexTail
  rw [if_neg (by simp)]
  rw [hsort]
  rfl

/-- Sorted indices of the shape `[1, 2]` produce exactly the
start-from-0 error. -/
theorem stopIndexTail_12 (a b : Int) (r : VR) (hperm : [a, b].Perm [1, 2]) :
    stopIndexTail [a, b] r = r.addError "Stop indices should start from 0" := by
  have hsort : List.insertionSort (α := Int) (· ≤ ·) [a, b] = [1, 2] :=
    List.eq_of_perm_of_sorted ((List.perm_insertionSort _ _).trans hperm)
      (List.sorted_insertionSort _ _) (by decide)
  unfold stopIndexTail
  rw [if_neg (by simp)]
  rw [hsort]
  rfl

/-- The prefix of `validate_cross_field_consistency` before the stop-index
check leaves `is_valid` and the errors untouched. -/
theorem crossFieldPrefix (fromIso : String → Option Int) (t : Elem) :
    (validateDateSequence fromIso t (validateCarrierCreditorConsistency t VR.init)).is_valid =
        true ∧
      (validateDateSequence fromIso t
        (validateCarrierCreditorConsistency t VR.init)).errors = [] := by
  obtain ⟨w1, hw1⟩ := warnExtends_carrierCreditor t VR.init
  obtain ⟨w2, hw2⟩ := warnExtends_dateSequence fromIso t
    (validateCarrierCreditorConsistency t VR.init)
  rw [hw2, hw1]
  exact ⟨rfl, rfl⟩

/-- C1: in every `ValidationResult` produced by the structural, field-format,
stop-reference, business, cross-field and ocean-completeness passes, and in
the aggregated `validate_transport_order_xml` result, the `is_valid` flag is
true iff the error list is empty (warnings never affect the flag). -/
theorem C1_is_valid_iff_errors_empty :
    (∀ p : Except String Elem,
      (validateXmlStructure p).is_valid = (validateXmlStructure p).errors.isEmpty) ∧
    (∀ (fp : String → Bool) (pm : String → String → Bool)
        (fr : List (String × FieldRule)) (p : Except String Elem),
      (validateFieldFormats fp pm fr p).is_valid =
        (validateFieldFormats fp pm fr p).errors.isEmpty) ∧
    (∀ p : Except String Elem,
      (validateStopReferences p).is_valid = (validateStopReferences p).errors.isEmpty) ∧
    (∀ (tr : String → Option TypeRules) (p : Except String Elem) (ty : String),
      (validateTransportTypeRules tr p ty).is_valid =
        (validateTransportTypeRules tr p ty).errors.isEmpty) ∧
    (∀ (fi : String → Option Int) (p : Except String Elem),
      (validateCrossFieldConsistency fi p).is_valid =
        (validateCrossFieldConsistency fi p).errors.isEmpty) ∧
    (∀ p : Except String Elem,
      (validateOceanCompleteness p).is_valid =
        (validateOceanCompleteness p).errors.isEmpty) ∧
    (∀ (fp : String → Bool) (pm : String → String → Bool)
        (fr : List (String × FieldRule)) (tr : String → Option TypeRules)
        (fi : String → Option Int) (p : Except String Elem) (ty : String),
      (validateTransportOrderXml fp pm fr tr fi p ty).is_valid =
        (validateTransportOrderXml fp pm fr tr fi p ty).errors.isEmpty) :=
  ⟨validateXmlStructure_inv,
   fun fp pm fr p => validateFieldFormats_inv fp pm fr p,
   validateStopReferences_inv,
   fun tr p ty => validateTransportTypeRules_inv tr p ty,
   fun fi p => validateCrossFieldConsistency_inv fi p,
   validateOceanCompleteness_inv,
   fun fp pm fr tr fi p ty => validateTransportOrderXml_inv fp pm fr tr fi p ty⟩

/-- C3: cross-field validation of stop indices.  A document whose stops carry
the index multiset \x7b0,1,3\x7d fails with the sequentiality error; one whose
stops carry \x7b1,2\x7d fails with the start-from-0 error. -/
theorem C3_stop_index_contiguity :
    (∀ (fromIso : String → Option Int) (root t : Elem) (a b c : Int),
      root.findDesc (nsTag "transport_order") = some t →
      stopIndexEntries t = [some a, some b, some c] →
      [a, b, c].Perm [0, 1, 3] →
      (validateCrossFieldConsistency fromIso (.ok root)).is_valid = false ∧
        (validateCrossFieldConsistency fromIso (.ok root)).errors =
          ["Stop indices should be sequential"]) ∧
    (∀ (fromIso : String → Option Int) (root t : Elem) (a b : Int),
      root.findDesc (nsTag "transport_order") = some t →
      stopIndexEntries t = [some a, some b] →
      [a, b].Perm [1, 2] →
      (validateCrossFieldConsistency fromIso (.ok root)).is_valid = false ∧
        (validateCrossFieldConsistency fromIso (.ok root)).errors =
          ["Stop indices should start from 0"]) := by
  constructor
  · intro fromIso root t a b c hroot hent hperm
    have hpre := crossFieldPrefix fromIso t
    have hrun : validateCrossFieldConsistency fromIso (.ok root) =
        validateStopIndexSequence t
          (validateDateSequence fromIso t (validateCarrierCreditorConsistency t VR.init)) := by
      unfold validateCrossFieldConsistency
      dsimp only
      rw [hroot]
    rw [hrun, validateStopIndexSequence_parsed t _ [a, b, c] (by simpa using hent),
      stopIndexTail_013 a b c _ hperm]
    simp [VR.addError, hpre.1, hpre.2]
  · intro fromIso root t a b hroot hent hperm
    have hpre := crossFieldPrefix fromIso t
    have hrun : validateCrossFieldConsistency fromIso (.ok root) =
        validateStopIndexSequence t
          (validateDateSequence fromIso t (validateCarrierCreditorConsistency t VR.init)) := by
      unfold validateCrossFieldConsistency
      dsimp only
      rw [hroot]
    rw [hrun, validateStopIndexSequence_parsed t _ [a, b] (by simpa using hent),
      stopIndexTail_12 a b _ hperm]
    simp [VR.addError, hpre.1, hpre.2]

theorem C3_stop_index_contiguity_witness :
    ((validateCrossFieldConsistency (fun _ => none) (.ok c3doc013)).is_valid = false ∧
      (validateCrossFieldConsistency (fun _ => none) (.ok c3doc013)).errors =
        ["Stop indices should be sequential"]) ∧
    ((validateCrossFieldConsistency (fun _ => none) (.ok c3doc12)).is_valid = false ∧
      (validateCrossFieldConsistency (fun _ => none) (.ok c3doc12)).errors =
        ["Stop indices should start from 0"]) :=
  ⟨C3_stop_index_contiguity.1 (fun _ => none) c3doc013 c3to013 0 1 3
      (by simp [c3doc013, c3to013, Elem.findDesc, Elem.children, findDescL, c3stop, nsTag, nsPre]) rfl (by decide),
   C3_stop_index_contiguity.2 (fun _ => none) c3doc12 c3to12 1 2
      (by simp [c3doc12, c3to12, Elem.findDesc, Elem.children, findDescL, c3stop, nsTag, nsPre]) rfl (by decide)⟩

/-- C9: a non-empty transport-level carrier_creditor_number combined with an
order-level `custom.preassignedCarrierCreditorNumber` parameter holding a
different value makes cross-field validation append the inconsistency warning
while leaving `is_valid` and the error list unchanged. -/
theorem C9_carrier_creditor_mismatch_is_warning :
    ∀ (t ce ps pm ve : Elem) (r : VR) (carrier : String),
      t.findChild "carrier_creditor_number" = some ce →
      ce.text = some carrier → carrier ≠ "" →
      t.findChild "parameters" = some ps →
      pm ∈ ps.findAll "parameter" →
      pm.attr "qualifier" = some "custom.preassignedCarrierCreditorNumber" →
      pm.findChild "value" = some ve →
      ve.text ≠ some carrier →
      (validateCarrierCreditorConsistency t r).errors = r.errors ∧
        (validateCarrierCreditorConsistency t r).is_valid = r.is_valid ∧
        "Carrier creditor number inconsistency between transport and order levels" ∈
          (validateCarrierCreditorConsistency t r).warnings := by
  intro t ce ps pm ve r carrier hce htext hne hps hmem hq hv hvne
  obtain ⟨w, hw⟩ := warnExtends_carrierCreditor t r
  refine ⟨by rw [hw], by rw [hw], ?_⟩
  have hemp : carrier.isEmpty = false := by
    cases hc : carrier.isEmpty
    · rfl
    · exact absurd ((String.isEmpty_iff _).mp hc) hne
  unfold validateCarrierCreditorConsistency
  simp only [hce, htext, hps, hemp, Bool.false_eq_true, if_false]
  apply mem_warn_foldl _ (warnExtends_ccStep carrier) _ pm hmem
  intro r0
  simp [hq, hv, hvne, VR.addWarning]

theorem firstClose_eq :
    ∀ (t a b : List Char), firstClose t = some (a, b) → t = a ++ '\x7d' :: b := by
  intro t
  induction t with
  | nil => intro a b h; simp [firstClose] at h
  | cons c rest ih =>
    intro a b h
    unfold firstClose at h
    split at h
    · rename_i hc
      obtain ⟨rfl, rfl⟩ : [] = a ∧ rest = b := by
        constructor <;> (cases h; rfl)
      simpa [hc]
    · rename_i hc
      cases hfc : firstClose rest with
      | none => rw [hfc] at h; cases h
      | some p =>
        rw [hfc] at h
        obtain ⟨a', b'⟩ := p
        obtain ⟨rfl, rfl⟩ : c :: a' = a ∧ b' = b := by
          constructor <;> (cases h; rfl)
        simp [ih a' b' hfc]

theorem hasClose_append_close (a b : List Char) : hasClose (a ++ '\x7d' :: b) = true := by
  induction a with
  | nil => simp [hasClose]
  | cons c a' ih => simp [hasClose, ih]

theorem hasClose_of_firstClose (t a b : List Char) (h : firstClose t = some (a, b)) :
    hasClose t = true := by
  rw [firstClose_eq t a b h]
  exact hasClose_append_close a b

theorem chompChar_eq_some (c : Char) (l r : List Char) (h : chompChar c l = some r) :
    l = c :: r := by
  unfold chompChar at h
  split at h
  · cases h
  · rename_i d l2
    split at h
    · rename_i hd
      cases h
      rw [hd]
    · cases h

theorem hasPH_of_parts :
    ∀ (a b s : List Char), s = a ++ '\x7b' :: b → hasClose b = true → hasPH s = true := by
  intro a
  induction a with
  | nil =>
    intro b s hs hb
    subst hs
    simp [hasPH, hb]
  | cons c a' ih =>
    intro b s hs hb
    subst hs
    have ht : hasPH (a' ++ '\x7b' :: b) = true := ih b _ rfl hb
    simp [hasPH, List.append_eq, ht]

theorem p1MatchLen_hasPH (s : List Char) (n : Nat) (h : p1MatchLen s = some n) :
    hasPH s = true := by
  unfold p1MatchLen at h
  split at h
  · cases h
  · rename_i t h0
    have hdec : s.drop (wsRun s) = '\x7b' :: t := chompChar_eq_some _ _ _ h0
    split at h
    · cases h
    · rename_i inner after hfc
      refine hasPH_of_parts (s.take (wsRun s)) t s ?_ (hasClose_of_firstClose t _ _ hfc)
      rw [← hdec]
      exact (List.take_append_drop (wsRun s) s).symm

theorem p2MatchLen_hasPH (s : List Char) (n : Nat) (h : p2MatchLen s = some n) :
    hasPH s = true := by
  unfold p2MatchLen at h
  split at h
  · cases h
  · rename_i t h0
    have hs : s = '<' :: t := chompChar_eq_some _ _ _ h0
    simp only at h
    split at h
    · cases h
    · split at h
      · cases h
      · rename_i u h1
        have ht : t.drop (t.takeWhile (fun c => c ≠ '>')).length = '>' :: u :=
          chompChar_eq_some _ _ _ h1
        split at h
        · cases h
        · rename_i v h2
          have hu : u.drop (wsRun u) = '\x7b' :: v := chompChar_eq_some _ _ _ h2
          split at h
          · cases h
          · rename_i inner after1 hfc
            have hT := (List.take_append_drop
              (t.takeWhile (fun c => c ≠ '>')).length t).symm
            rw [ht] at hT
            have hU := (List.take_append_drop (wsRun u) u).symm
            rw [hu] at hU
            refine hasPH_of_parts
              ('<' :: (t.take (t.takeWhile (fun c => c ≠ '>')).length ++
                '>' :: u.take (wsRun u))) v s ?_
              (hasClose_of_firstClose v _ _ hfc)
            rw [hs]
            conv_lhs => rw [hT]
            conv_lhs => rw [hU]
            simp

theorem p3TryCandidate_hasClose (t : List Char) (i : Nat) (n : Nat)
    (h : p3TryCandidate t i = some n) : hasClose (t.drop (i + 1)) = true := by
  unfold p3TryCandidate at h
  split at h
  all_goals first
    | cases h
    | (rename_i hfc; exact hasClose_of_firstClose _ _ _ hfc)

theorem p3MatchLen_hasPH (s : List Char) (n : Nat) (h : p3MatchLen s = some n) :
    hasPH s = true := by
  unfold p3MatchLen at h
  split at h
  · cases h
  · rename_i t h0
    have hs : s = '<' :: t := chompChar_eq_some _ _ _ h0
    obtain ⟨i, hi, hcand⟩ := List.exists_of_findSome?_eq_some h
    have hget : t.get? i = some '\x7b' := by
      have := (List.mem_filter.mp (List.mem_reverse.mp hi)).2
      exact of_decide_eq_true this
    obtain ⟨hlt, -⟩ := List.get?_eq_some.mp hget
    have hdrop : t.drop i = '\x7b' :: t.drop (i + 1) := by
      rw [List.drop_eq_get_cons hlt]
      congr 1
      have h2 := List.get?_eq_get hlt
      rw [hget] at h2
      exact (Option.some.inj h2).symm
    have hT := (List.take_append_drop i t).symm
    rw [hdrop] at hT
    refine hasPH_of_parts ('<' :: t.take i) (t.drop (i + 1)) s ?_
      (p3TryCandidate_hasClose t i n hcand)
    rw [hs]
    conv_lhs => rw [hT]
    simp

theorem p4MatchLen_hasPH (s : List Char) (n : Nat) (h : p4MatchLen s = some n) :
    hasPH s = true := by
  unfold p4MatchLen at h
  split at h
  · cases h
  · rename_i t h0
    have hs : s = '\x7b' :: t := chompChar_eq_some _ _ _ h0
    split at h
    · rename_i inner after hfc
      rw [hs]
      simp [hasPH, hasClose_of_firstClose t _ _ hfc]
    · cases h

theorem hasPH_cons_false (c : Char) (rest : List Char) (h : hasPH (c :: rest) = false) :
    hasPH rest = false := by
  unfold hasPH at h
  exact (Bool.or_eq_false_iff.mp h).2

theorem scanGo_id (matchLen : List Char → Option Nat)
    (hm : ∀ s n, matchLen s = some n → hasPH s = true) :
    ∀ (fuel : Nat) (s : List Char), hasPH s = false → scanGo matchLen fuel s = s := by
  intro fuel
  induction fuel with
  | zero => intro s _; rfl
  | succ f ih =>
    intro s h
    cases s with
    | nil => rfl
    | cons c rest =>
      unfold scanGo
      cases hml : matchLen (c :: rest) with
      | some n => rw [hm _ _ hml] at h; cases h
      | none => rw [ih rest (hasPH_cons_false c rest h)]

theorem p1Go_id :
    ∀ (fuel : Nat) (atLS : Bool) (s : List Char), hasPH s = false → p1Go fuel atLS s = s := by
  intro fuel
  induction fuel with
  | zero => intro atLS s _; rfl
  | succ f ih =>
    intro atLS s h
    cases s with
    | nil => rfl
    | cons c rest =>
      unfold p1Go
      cases atLS with
      | false => simp only [Bool.false_eq_true, if_false]; rw [ih _ rest (hasPH_cons_false c rest h)]
      | true =>
        simp only [if_true]
        cases hml : p1MatchLen (c :: rest) with
        | some n => rw [p1MatchLen_hasPH _ _ hml] at h; cases h
        | none => rw [ih _ rest (hasPH_cons_false c rest h)]

/-- C4: placeholder cleanup.  On text containing no placeholder token the
cleanup is the identity; a standalone placeholder on its own line is removed,
leaving the (now empty) line behind, with no token anywhere in the output. -/
theorem C4_placeholder_cleanup :
    (∀ s : String, hasPH s.data = false → removeEmptyPlaceholders s = s) ∧
    removeEmptyPlaceholders "<a>x</a>\n\x7bunused\x7d\n<b>y</b>" = "<a>x</a>\n\n<b>y</b>" ∧
    hasPH (removeEmptyPlaceholders "<a>x</a>\n\x7bunused\x7d\n<b>y</b>").data = false := by
  refine ⟨?_, by decide, by decide⟩
  intro s h
  unfold removeEmptyPlaceholders pass1 pass2 pass3 pass4
  rw [p1Go_id _ _ _ h, scanGo_id p2MatchLen p2MatchLen_hasPH _ _ h,
    scanGo_id p3MatchLen p3MatchLen_hasPH _ _ h,
    scanGo_id p4MatchLen p4MatchLen_hasPH _ _ h]

theorem C4_placeholder_cleanup_witness :
    hasPH "<stops><stop>1</stop></stops>".data = false ∧
      removeEmptyPlaceholders "<stops><stop>1</stop></stops>" =
        "<stops><stop>1</stop></stops>" :=
  ⟨by decide, C4_placeholder_cleanup.1 "<stops><stop>1</stop></stops>" (by decide)⟩

/-- C2 (code bug): the source guards the length check behind
`not carrier_creditor.isdigit()`, so an all-digit value of the wrong length
("123") and a 10-character non-digit value ("ABCDEFGHIJ") are both accepted
without any error, although neither is an all-digit 10-character string and
the check's own error message demands "10 digits".  Only a value that is
both non-digit and of length ≠ 10 ("12X") is flagged. -/
theorem C2_carrier_creditor_check_bug :
    ((crPerformSpecificValidation c2input123 VR.init).errors = [] ∧
      (crPerformSpecificValidation c2input123 VR.init).is_valid = true ∧
      ¬(pyIsDigitStr "123" = true ∧ "123".length = 10)) ∧
    ((crPerformSpecificValidation c2inputLetters VR.init).errors = [] ∧
      (crPerformSpecificValidation c2inputLetters VR.init).is_valid = true ∧
      ¬(pyIsDigitStr "ABCDEFGHIJ" = true ∧ "ABCDEFGHIJ".length = 10)) ∧
    ((crPerformSpecificValidation c2input12X VR.init).errors =
        ["Carrier creditor number must be 10 digits"] ∧
      (crPerformSpecificValidation c2input12X VR.init).is_valid = false) := by
  refine ⟨⟨?_, ?_, ?_⟩, ⟨?_, ?_, ?_⟩, ?_, ?_⟩ <;> decide

theorem pyDollar_iff (l : List Char) : pyDollar l = true ↔ l = [] ∨ l = ['\n'] := by
  simp [pyDollar]

/-- What `re.match` of the SCAC pattern accepts: four `[A-Z0-9]` characters,
optionally followed by one final newline (Python `$`). -/
theorem scacMatch_iff (s : String) :
    scacMatch s = true ↔
      ∃ a b c d rest, s.data = [a, b, c, d] ++ rest ∧ (rest = [] ∨ rest = ['\n']) ∧
        scacChar a = true ∧ scacChar b = true ∧ scacChar c = true ∧ scacChar d = true := by
  unfold scacMatch
  rcases hs : s.data with _ | ⟨a, _ | ⟨b, _ | ⟨c, _ | ⟨d, rest⟩⟩⟩⟩
  · simp
  · simp
  · simp
  · simp
  · dsimp only
    simp only [Bool.and_eq_true]
    constructor
    · rintro ⟨⟨⟨⟨ha, hb⟩, hc⟩, hd⟩, hr⟩
      exact ⟨a, b, c, d, rest, rfl, (pyDollar_iff rest).mp hr, ha, hb, hc, hd⟩
    · rintro ⟨a', b', c', d', rest', heq, hr, ha, hb, hc, hd⟩
      have hall : a = a' ∧ b = b' ∧ c = c' ∧ d = d' ∧ rest = rest' := by
        simpa using heq
      obtain ⟨rfl, rfl, rfl, rfl, rfl⟩ := hall
      exact ⟨⟨⟨⟨ha, hb⟩, hc⟩, hd⟩, (pyDollar_iff rest).mpr hr⟩

/-- The field-format pass flags a `ocean.scac.no` parameter value exactly
when the SCAC pattern rejects it. -/
theorem validateParameterFormats_scac (v : String) (hv : v.isEmpty = false) :
    (validateParameterFormats (scacTO v) VR.init).errors =
      if scacMatch v then [] else ["Invalid SCAC code format: " ++ v] := by
  cases hsm : scacMatch v <;>
    simp [validateParameterFormats, scacTO, scacParam, Elem.findChild, Elem.findAll,
      Elem.attr, Elem.children, Elem.text, Elem.tag, Elem.attrs, paramScacCheck, hv, hsm,
      VR.addError, VR.init] <;>
    rfl

/-- The ocean parameter collector raises exactly when the SCAC pattern
rejects the supplied value. -/
theorem collectOceanParameters_scac (v : String) :
    collectOceanParameters (scacInput v) =
      if scacMatch v then
        .ok [("ocean.scac.no", v), ("ocean.bl.no", "BL1"), ("ocean.container.no", "C1"),
          ("ocean.booking.no", "")]
      else .error ("SCAC code must be 4 alphanumeric characters: " ++ v) := by
  cases hsm : scacMatch v <;>
    simp [collectOceanParameters, collectOceanGo, oceanParamsCfg, scacInput,
      OceanInput.oceanKey, hsm]

/-- C5 (as stated, refuted): the SCAC sites do not accept exactly the
4-character `[A-Z0-9]` strings: the 5-character value appending a newline
to "MAEU" also passes both the field-format pass and the collector, because
Python `$` matches before a final newline. -/
theorem C5_scac_format_counterexample :
    scacMatch "MAEU\n" = true ∧
      (validateParameterFormats (scacTO "MAEU\n") VR.init).errors = [] ∧
      collectOceanParameters (scacInput "MAEU\n") =
        .ok [("ocean.scac.no", "MAEU\n"), ("ocean.bl.no", "BL1"),
          ("ocean.container.no", "C1"), ("ocean.booking.no", "")] ∧
      "MAEU\n".length = 5 :=
  ⟨by decide, by decide, rfl, by decide⟩

/-- C5 (amended): SCAC format validation accepts exactly the strings of four
`A-Z`/`0-9` characters optionally followed by one trailing newline; "MAEU"
passes while "maeu" and "MAE1X" are rejected, in both the structural
field-format pass and the ocean parameter collector. -/
theorem C5_scac_format :
    (∀ s : String, scacMatch s = true ↔
      ∃ a b c d rest, s.data = [a, b, c, d] ++ rest ∧ (rest = [] ∨ rest = ['\n']) ∧
        scacChar a = true ∧ scacChar b = true ∧ scacChar c = true ∧ scacChar d = true) ∧
    scacMatch "MAEU" = true ∧ scacMatch "maeu" = false ∧ scacMatch "MAE1X" = false ∧
    (∀ v : String, v.isEmpty = false →
      (validateParameterFormats (scacTO v) VR.init).errors =
        if scacMatch v then [] else ["Invalid SCAC code format: " ++ v]) ∧
    (∀ v : String, collectOceanParameters (scacInput v) =
      if scacMatch v then
        .ok [("ocean.scac.no", v), ("ocean.bl.no", "BL1"), ("ocean.container.no", "C1"),
          ("ocean.booking.no", "")]
      else .error ("SCAC code must be 4 alphanumeric characters: " ++ v)) :=
  ⟨scacMatch_iff, by decide, by decide, by decide,
   validateParameterFormats_scac, collectOceanParameters_scac⟩

theorem C5_scac_format_witness :
    ("MAEU".isEmpty = false) ∧
      (validateParameterFormats (scacTO "MAEU") VR.init).errors =
        (if scacMatch "MAEU" then [] else ["Invalid SCAC code format: " ++ "MAEU"]) :=
  ⟨by decide, C5_scac_format.2.2.2.2.1 "MAEU" (by decide)⟩

/-- The scan is the first present-and-non-empty pattern value, or a no-op. -/
theorem fmScan_eq (target : String) (patterns : List String)
    (userInput collected : List (String × String)) :
    fmScan target patterns userInput collected =
      match patterns.findSome?
          (fun p => (pyGet userInput p).filter (fun v => !v.isEmpty)) with
      | some v => pySet collected target v
      | none => collected := by
  induction patterns with
  | nil => rfl
  | cons p rest ih =>
    unfold fmScan
    rw [List.findSome?_cons]
    cases hp : pyGet userInput p with
    | none => simp only [Option.filter]; exact ih
    | some v =>
      cases hv : v.isEmpty with
      | true => simp [Option.filter, hv, ih]
      | false => simp [Option.filter, hv]

/-- C8: the field-mapping rule is first-set-wins.  With a usable target
field: if the draft already holds a non-empty target value the draft is
returned unchanged; otherwise the first source pattern that is present and
non-empty in the raw input is copied into the target, and the draft is
unchanged when none matches. -/
theorem C8_field_mapping_first_set_wins :
    ∀ (rule : FMRule) (userInput collected : List (String × String)) (tf : String),
      rule.target_field = some tf → tf.isEmpty = false →
      ((optTruthy (pyGet collected tf) = true →
          applyFieldMappingRule rule userInput collected = collected) ∧
        (optTruthy (pyGet collected tf) = false →
          applyFieldMappingRule rule userInput collected =
            match rule.field_patterns.findSome?
                (fun p => (pyGet userInput p).filter (fun v => !v.isEmpty)) with
            | some v => pySet collected tf v
            | none => collected)) := by
  intro rule userInput collected tf htf hne
  unfold applyFieldMappingRule
  rw [htf]
  constructor
  · intro hset
    simp [hne, hset]
  · intro hunset
    simp only [hne, Bool.false_eq_true, if_false, hunset]
    exact fmScan_eq tf rule.field_patterns userInput collected

theorem C8_field_mapping_first_set_wins_witness :
    applyFieldMappingRule c8rule [("carrier", "999")] [("number", "1")] =
      [("number", "1"), ("carrier_creditor_number", "999")] :=
  ((C8_field_mapping_first_set_wins c8rule [("carrier", "999")] [("number", "1")]
      "carrier_creditor_number" rfl (by decide)).2 (by decide)).trans (by rfl)

theorem oceanStopsCheck_spec (input : OceanInput) (r : VRX) :
    oceanStopsCheck input r =
      { r with is_valid := r.is_valid && (oceanStopsErrs input).isEmpty,
               errors := r.errors ++ oceanStopsErrs input } := by
  unfold oceanStopsCheck oceanStopsErrs
  split
  · simp [VRX.addError]
  · split
    · simp [VRX.addError]
    · simp

theorem foldl_guardAddError {α : Type _} (l : List α) (cond : α → Bool) (m : α → String)
    (r : VRX) :
    (l.foldl (fun r a => if cond a then r.addError (m a) else r) r) =
      { r with is_valid := r.is_valid && ((l.filter cond).map m).isEmpty,
               errors := r.errors ++ (l.filter cond).map m } := by
  induction l generalizing r with
  | nil => simp
  | cons a t ih =>
    simp only [List.foldl_cons, List.filter_cons]
    cases hc : cond a
    · simp only [Bool.false_eq_true, if_false]
      rw [ih]
    · simp only [if_true]
      rw [ih]
      simp [VRX.addError]

theorem oceanReqParamsCheck_spec (input : OceanInput) (r : VRX) :
    oceanReqParamsCheck input r =
      { r with is_valid := r.is_valid && (oceanReqErrs input).isEmpty,
               errors := r.errors ++ oceanReqErrs input } := by
  unfold oceanReqParamsCheck oceanReqErrs
  exact foldl_guardAddError requiredOceanParameters
    (fun q => (input.oceanKey q).isNone) missingOceanMsg r

theorem oceanScacCheck_spec (input : OceanInput) (r : VRX) :
    oceanScacCheck input r =
      { r with is_valid := r.is_valid && (oceanScacErrs input).isEmpty,
               errors := r.errors ++ oceanScacErrs input } := by
  simp only [oceanScacCheck, oceanScacErrs]
  split
  · simp [VRX.addError]
  · split
    · split
      · simp [VRX.addError]
      · simp
    · simp

theorem warnExtendsX_foldl {α : Type _} (step : VRX → α → VRX)
    (hstep : ∀ a, warnExtendsX (fun r => step r a)) :
    ∀ l : List α, warnExtendsX (fun r => l.foldl step r) := by
  intro l
  induction l with
  | nil => exact fun r => ⟨[], by simp⟩
  | cons a t ih =>
    intro r
    obtain ⟨w1, hw1⟩ := hstep a r
    obtain ⟨w2, hw2⟩ := ih (step r a)
    refine ⟨w1 ++ w2, ?_⟩
    show (t.foldl step (step r a)) = _
    simp only at hw1 hw2
    rw [hw2, hw1]
    simp

theorem warnExtendsX_oceanForbiddenWarn (input : OceanInput) :
    warnExtendsX (oceanForbiddenWarn input) := by
  intro r
  unfold oceanForbiddenWarn
  refine warnExtendsX_foldl _ ?_ _ r
  intro a r0
  dsimp only
  split
  · exact ⟨_, rfl⟩
  · exact ⟨[], by simp⟩

theorem warnExtendsX_oceanParamWarn (input : OceanInput) :
    warnExtendsX (oceanParamWarn input) := by
  intro r
  unfold oceanParamWarn
  refine warnExtendsX_foldl _ ?_ _ r
  intro a r0
  dsimp only
  split
  · exact ⟨_, rfl⟩
  · exact ⟨[], by simp⟩

/-- The fields of `validate_input` relevant to the missing-parameter claim. -/
theorem validateInputOcean_spec (input : OceanInput) :
    (validateInputOcean input).errors =
        oceanStopsErrs input ++ oceanReqErrs input ++ oceanScacErrs input ∧
      (validateInputOcean input).missing_required = generateMissingFieldPromptsOcean input ∧
      (validateInputOcean input).is_valid =
        ((generateMissingFieldPromptsOcean input).isEmpty &&
          (oceanStopsErrs input).isEmpty && (oceanReqErrs input).isEmpty &&
          (oceanScacErrs input).isEmpty) := by
  unfold validateInputOcean oceanPerformSpecificValidation
  obtain ⟨w1, hw1⟩ := warnExtendsX_oceanForbiddenWarn input
    (oceanScacCheck input (oceanReqParamsCheck input (oceanStopsCheck input
      { is_valid := (generateMissingFieldPromptsOcean input).isEmpty
        errors := []
        warnings := []
        missing_required := generateMissingFieldPromptsOcean input
        suggested_optional := oceanSuggestedOptional })))
  obtain ⟨w2, hw2⟩ := warnExtendsX_oceanParamWarn input
    (oceanForbiddenWarn input
      (oceanScacCheck input (oceanReqParamsCheck input (oceanStopsCheck input
        { is_valid := (generateMissingFieldPromptsOcean input).isEmpty
          errors := []
          warnings := []
          missing_required := generateMissingFieldPromptsOcean input
          suggested_optional := oceanSuggestedOptional }))))
  rw [hw2, hw1, oceanScacCheck_spec, oceanReqParamsCheck_spec, oceanStopsCheck_spec]
  simp [Bool.and_assoc]

theorem mem_oceanStopsErrs (input : OceanInput) (x : String)
    (h : x ∈ oceanStopsErrs input) :
    x = "Ocean visibility requires either 2 stops OR departure_location and arrival_location data" ∨
      x = "Ocean visibility requires exactly 2 stops (Departure and Arrival)" := by
  unfold oceanStopsErrs at h
  split at h
  · exact .inl (List.mem_singleton.mp h)
  · split at h
    · exact .inr (List.mem_singleton.mp h)
    · cases h

theorem mem_oceanScacErrs (input : OceanInput) (x : String)
    (h : x ∈ oceanScacErrs input) :
    x = "SCAC code must be exactly 4 characters" ∨
      x = "SCAC code must contain only uppercase letters and numbers" := by
  unfold oceanScacErrs at h
  split at h
  · exact .inl (List.mem_singleton.mp h)
  · split at h
    · split at h
      · exact .inr (List.mem_singleton.mp h)
      · cases h
    · cases h

/-- C6: for every Ocean Visibility input from which exactly one of the
qualifiers `ocean.scac.no`, `ocean.bl.no`, `ocean.container.no` is absent,
`generate_xml` returns an unsuccessful validation-error result (no XML is
assembled, whatever the assembly path would produce), its error list
contains the missing-parameter message for exactly that qualifier, and its
`missing_required` list contains the prompt for exactly that qualifier. -/
theorem C6_ocean_missing_qualifier
    (assemble : OceanInput → GenResult) (input : OceanInput) (p : String)
    (hp : p ∈ requiredOceanParameters)
    (habs : input.oceanKey p = none)
    (hoth : ∀ q, q ∈ requiredOceanParameters → q ≠ p → (input.oceanKey q).isSome = true) :
    (oceanGenerateXml assemble input).isSuccess = false ∧
      (oceanGenerateXml assemble input).isValidationError = true ∧
      missingOceanMsg p ∈ (oceanGenerateXml assemble input).errorList ∧
      (∀ q, q ∈ requiredOceanParameters → q ≠ p →
        missingOceanMsg q ∉ (oceanGenerateXml assemble input).errorList) ∧
      promptFor (oceanParamDesc p) p ∈ (oceanGenerateXml assemble input).missingList ∧
      (∀ q, q ∈ requiredOceanParameters → q ≠ p →
        promptFor (oceanParamDesc q) q ∉ (oceanGenerateXml assemble input).missingList) := by
  have hp3 : p = "ocean.scac.no" ∨ p = "ocean.bl.no" ∨ p = "ocean.container.no" := by
    simpa [requiredOceanParameters] using hp
  obtain ⟨he, hmr, hv⟩ := validateInputOcean_spec input
  rcases hp3 with rfl | rfl | rfl
  · have h2 : (input.oceanKey "ocean.bl.no").isSome = true :=
      hoth "ocean.bl.no" (by decide) (by decide)
    have h3 : (input.oceanKey "ocean.container.no").isSome = true :=
      hoth "ocean.container.no" (by decide) (by decide)
    obtain ⟨vb, k2⟩ := Option.isSome_iff_exists.mp h2
    obtain ⟨vc, k3⟩ := Option.isSome_iff_exists.mp h3
    have hre : oceanReqErrs input = [missingOceanMsg "ocean.scac.no"] := by
      simp [oceanReqErrs, requiredOceanParameters, List.filter_cons, habs, k2, k3]
    have hpr : generateMissingFieldPromptsOcean input =
        (if input.number.isNone then [promptFor "transport order number" "number"] else []) ++
          [promptFor "SCAC carrier code" "ocean.scac.no"] := by
      simp [generateMissingFieldPromptsOcean, oceanParamsCfg, List.filter_cons,
        habs, k2, k3, oceanParamDesc]
    have hprne : (generateMissingFieldPromptsOcean input).isEmpty = false := by
      rw [hpr]; split <;> rfl
    have hval : (validateInputOcean input).is_valid = false := by
      rw [hv, hprne]; rfl
    have hres : oceanGenerateXml assemble input = GenResult.validationError
        (validateInputOcean input).errors (validateInputOcean input).missing_required
        (validateInputOcean input).suggested_optional := by
      unfold oceanGenerateXml; rw [hval]; simp
    refine ⟨by rw [hres]; rfl, by rw [hres]; rfl, ?_, ?_, ?_, ?_⟩
    · rw [hres]
      simp only [GenResult.errorList]
      rw [he, hre]
      simp
    · intro q hq hqp
      have hq3 : q = "ocean.scac.no" ∨ q = "ocean.bl.no" ∨ q = "ocean.container.no" := by
        simpa [requiredOceanParameters] using hq
      rcases hq3 with rfl | rfl | rfl
      · exact absurd rfl hqp
      · intro hmem
        rw [hres] at hmem
        simp only [GenResult.errorList] at hmem
        rw [he, hre] at hmem
        rcases List.mem_append.mp hmem with hmem | hmem
        · rcases List.mem_append.mp hmem with hmem | hmem
          · rcases mem_oceanStopsErrs input _ hmem with h | h <;> revert h <;> decide
          · revert hmem; decide
        · rcases mem_oceanScacErrs input _ hmem with h | h <;> revert h <;> decide
      · intro hmem
        rw [hres] at hmem
        simp only [GenResult.errorList] at hmem
        rw [he, hre] at hmem
        rcases List.mem_append.mp hmem with hmem | hmem
        · rcases List.mem_append.mp hmem with hmem | hmem
          · rcases mem_oceanStopsErrs input _ hmem with h | h <;> revert h <;> decide
          · revert hmem; decide
        · rcases mem_oceanScacErrs input _ hmem with h | h <;> revert h <;> decide
    · rw [hres]
      simp only [GenResult.missingList]
      rw [hmr, hpr]
      simp [oceanParamDesc]
    · intro q hq hqp
      have hq3 : q = "ocean.scac.no" ∨ q = "ocean.bl.no" ∨ q = "ocean.container.no" := by
        simpa [requiredOceanParameters] using hq
      rcases hq3 with rfl | rfl | rfl
      · exact absurd rfl hqp
      · intro hmem
        rw [hres] at hmem
        simp only [GenResult.missingList] at hmem
        rw [hmr, hpr] at hmem
        rcases List.mem_append.mp hmem with h | h
        · revert h; split <;> decide
        · revert h; decide
      · intro hmem
        rw [hres] at hmem
        simp only [GenResult.missingList] at hmem
        rw [hmr, hpr] at hmem
        rcases List.mem_append.mp hmem with h | h
        · revert h; split <;> decide
        · revert h; decide
  · have h2 : (input.oceanKey "ocean.scac.no").isSome = true :=
      hoth "ocean.scac.no" (by decide) (by decide)
    have h3 : (input.oceanKey "ocean.container.no").isSome = true :=
      hoth "ocean.container.no" (by decide) (by decide)
    obtain ⟨vs, k1⟩ := Option.isSome_iff_exists.mp h2
    obtain ⟨vc, k3⟩ := Option.isSome_iff_exists.mp h3
    have hre : oceanReqErrs input = [missingOceanMsg "ocean.bl.no"] := by
      simp [oceanReqErrs, requiredOceanParameters, List.filter_cons, habs, k1, k3]
    have hpr : generateMissingFieldPromptsOcean input =
        (if input.number.isNone then [promptFor "transport order number" "number"] else []) ++
          [promptFor "bill of lading number" "ocean.bl.no"] := by
      simp [generateMissingFieldPromptsOcean, oceanParamsCfg, List.filter_cons,
        habs, k1, k3, oceanParamDesc]
    have hprne : (generateMissingFieldPromptsOcean input).isEmpty = false := by
      rw [hpr]; split <;> rfl
    have hval : (validateInputOcean input).is_valid = false := by
      rw [hv, hprne]; rfl
    have hres : oceanGenerateXml assemble input = GenResult.validationError
        (validateInputOcean input).errors (validateInputOcean input).missing_required
        (validateInputOcean input).suggested_optional := by
      unfold oceanGenerateXml; rw [hval]; simp
    refine ⟨by rw [hres]; rfl, by rw [hres]; rfl, ?_, ?_, ?_, ?_⟩
    · rw [hres]
      simp only [GenResult.errorList]
      rw [he, hre]
      simp
    · intro q hq hqp
      have hq3 : q = "ocean.scac.no" ∨ q = "ocean.bl.no" ∨ q = "ocean.container.no" := by
        simpa [requiredOceanParameters] using hq
      rcases hq3 with rfl | rfl | rfl
      · intro hmem
        rw [hres] at hmem
        simp only [GenResult.errorList] at hmem
        rw [he, hre] at hmem
        rcases List.mem_append.mp hmem with hmem | hmem
        · rcases List.mem_append.mp hmem with hmem | hmem
          · rcases mem_oceanStopsErrs input _ hmem with h | h <;> revert h <;> decide
          · revert hmem; decide
        · rcases mem_oceanScacErrs input _ hmem with h | h <;> revert h <;> decide
      · exact absurd rfl hqp
      · intro hmem
        rw [hres] at hmem
        simp only [GenResult.errorList] at hmem
        rw [he, hre] at hmem
        rcases List.mem_append.mp hmem with hmem | hmem
        · rcases List.mem_append.mp hmem with hmem | hmem
          · rcases mem_oceanStopsErrs input _ hmem with h | h <;> revert h <;> decide
          · revert hmem; decide
        · rcases mem_oceanScacErrs input _ hmem with h | h <;> revert h <;> decide
    · rw [hres]
      simp only [GenResult.missingList]
      rw [hmr, hpr]
      simp [oceanParamDesc]
    · intro q hq hqp
      have hq3 : q = "ocean.scac.no" ∨ q = "ocean.bl.no" ∨ q = "ocean.container.no" := by
        simpa [requiredOceanParameters] using hq
      rcases hq3 with rfl | rfl | rfl
      · intro hmem
        rw [hres] at hmem
        simp only [GenResult.missingList] at hmem
        rw [hmr, hpr] at hmem
        rcases List.mem_append.mp hmem with h | h
        · revert h; split <;> decide
        · revert h; decide
      · exact absurd rfl hqp
      · intro hmem
        rw [hres] at hmem
        simp only [GenResult.missingList] at hmem
        rw [hmr, hpr] at hmem
        rcases List.mem_append.mp hmem with h | h
        · revert h; split <;> decide
        · revert h; decide
  · have h2 : (input.oceanKey "ocean.scac.no").isSome = true :=
      hoth "ocean.scac.no" (by decide) (by decide)
    have h3 : (input.oceanKey "ocean.bl.no").isSome = true :=
      hoth "ocean.bl.no" (by decide) (by decide)
    obtain ⟨vs, k1⟩ := Option.isSome_iff_exists.mp h2
    obtain ⟨vb, k2⟩ := Option.isSome_iff_exists.mp h3
    have hre : oceanReqErrs input = [missingOceanMsg "ocean.container.no"] := by
      simp [oceanReqErrs, requiredOceanParameters, List.filter_cons, habs, k1, k2]
    have hpr : generateMissingFieldPromptsOcean input =
        (if input.number.isNone then [promptFor "transport order number" "number"] else []) ++
          [promptFor "container number" "ocean.container.no"] := by
      simp [generateMissingFieldPromptsOcean, oceanParamsCfg, List.filter_cons,
        habs, k1, k2, oceanParamDesc]
    have hprne : (generateMissingFieldPromptsOcean input).isEmpty = false := by
      rw [hpr]; split <;> rfl
    have hval : (validateInputOcean input).is_valid = false := by
      rw [hv, hprne]; rfl
    have hres : oceanGenerateXml assemble input = GenResult.validationError
        (validateInputOcean input).errors (validateInputOcean input).missing_required
        (validateInputOcean input).suggested_optional := by
      unfold oceanGenerateXml; rw [hval]; simp
    refine ⟨by rw [hres]; rfl, by rw [hres]; rfl, ?_, ?_, ?_, ?_⟩
    · rw [hres]
      simp only [GenResult.errorList]
      rw [he, hre]
      simp
    · intro q hq hqp
      have hq3 : q = "ocean.scac.no" ∨ q = "ocean.bl.no" ∨ q = "ocean.container.no" := by
        simpa [requiredOceanParameters] using hq
      rcases hq3 with rfl | rfl | rfl
      · intro hmem
        rw [hres] at hmem
        simp only [GenResult.errorList] at hmem
        rw [he, hre] at hmem
        rcases List.mem_append.mp hmem with hmem | hmem
        · rcases List.mem_append.mp hmem with hmem | hmem
          · rcases mem_oceanStopsErrs input _ hmem with h | h <;> revert h <;> decide
          · revert hmem; decide
        · rcases mem_oceanScacErrs input _ hmem with h | h <;> revert h <;> decide
      · intro hmem
        rw [hres] at hmem
        simp only [GenResult.errorList] at hmem
        rw [he, hre] at hmem
        rcases List.mem_append.mp hmem with hmem | hmem
        · rcases List.mem_append.mp hmem with hmem | hmem
          · rcases mem_oceanStopsErrs input _ hmem with h | h <;> revert h <;> decide
          · revert hmem; decide
        · rcases mem_oceanScacErrs input _ hmem with h | h <;> revert h <;> decide
      · exact absurd rfl hqp
    · rw [hres]
      simp only [GenResult.missingList]
      rw [hmr, hpr]
      simp [oceanParamDesc]
    · intro q hq hqp
      have hq3 : q = "ocean.scac.no" ∨ q = "ocean.bl.no" ∨ q = "ocean.container.no" := by
        simpa [requiredOceanParameters] using hq
      rcases hq3 with rfl | rfl | rfl
      · intro hmem
        rw [hres] at hmem
        simp only [GenResult.missingList] at hmem
        rw [hmr, hpr] at hmem
        rcases List.mem_append.mp hmem with h | h
        · revert h; split <;> decide
        · revert h; decide
      · intro hmem
        rw [hres] at hmem
        simp only [GenResult.missingList] at hmem
        rw [hmr, hpr] at hmem
        rcases List.mem_append.mp hmem with h | h
        · revert h; split <;> decide
        · revert h; decide
      · exact absurd rfl hqp

theorem C6_ocean_missing_qualifier_witness :
    "ocean.bl.no" ∈ requiredOceanParameters ∧
      c6input.oceanKey "ocean.bl.no" = none ∧
      missingOceanMsg "ocean.bl.no" ∈
        (oceanGenerateXml (fun _ => GenResult.generationError "") c6input).errorList ∧
      promptFor (oceanParamDesc "ocean.bl.no") "ocean.bl.no" ∈
        (oceanGenerateXml (fun _ => GenResult.generationError "") c6input).missingList := by
  have h := C6_ocean_missing_qualifier (fun _ => GenResult.generationError "") c6input
    "ocean.bl.no" (by decide) (by decide) (by decide)
  exact ⟨by decide, by decide, h.2.2.1, h.2.2.2.2.1⟩

/-- C7 (refutation): the bare-name fallback exists only in
`validate_xml_structure`.  On an all-bare-tag document the structural pass
locates the transport_order element (and accepts the bare root tag), but
`validate_stop_references` and `validate_ocean_completeness` — which look
the element up under the namespace only — reject the document with a
"No transport_order element found" error. -/
theorem C7_namespace_tolerant_lookup_counterexample :
    locateTransportOrder c7doc = some c7to ∧
      validateNamespace c7doc = true ∧
      validateStopReferences (Except.ok c7doc) =
        { is_valid := false, errors := ["No transport_order element found"], warnings := [] } ∧
      validateOceanCompleteness (Except.ok c7doc) =
        { is_valid := false, errors := ["No transport_order element found"], warnings := [] } := by
  have key2 : ∀ r : Elem, r.findDesc (nsTag "transport_order") = none →
      validateStopReferences (Except.ok r) =
        VR.init.addError "No transport_order element found" := by
    intro r h
    simp only [validateStopReferences]
    rw [h]
  have key3 : ∀ r : Elem, r.findDesc (nsTag "transport_order") = none →
      validateOceanCompleteness (Except.ok r) =
        VR.init.addError "No transport_order element found" := by
    intro r h
    simp only [validateOceanCompleteness]
    rw [h]
  have hns : c7doc.findDesc (nsTag "transport_order") = none := by
    simp [c7doc, c7to, Elem.findDesc, Elem.children, findDescL, nsTag, nsPre]
  have hb : c7doc.findDesc "transport_order" = some c7to := by
    simp [c7doc, c7to, Elem.findDesc, Elem.children, findDescL]
  refine ⟨?_, by simp [validateNamespace, c7doc, Elem.tag], ?_, ?_⟩
  · unfold locateTransportOrder
    rw [hns, hb]
    rfl
  · rw [key2 c7doc hns]
    rfl
  · rw [key3 c7doc hns]
    rfl

/-- C7 (amended): on any document with no namespaced transport_order but a
bare-named one, the structural pass locates it through the fallback and
proceeds (the bare root tag also passes the namespace and root checks),
while the field-format, stop-reference, transport-type, cross-field and
ocean-completeness passes — whose lookup is namespaced-only — each return
exactly the "No transport_order element found" rejection. -/
theorem C7_namespace_tolerant_lookup (root t : Elem)
    (hns : root.findDesc (nsTag "transport_order") = none)
    (hb : root.findDesc "transport_order" = some t) :
    locateTransportOrder root = some t ∧
      validateXmlStructure (Except.ok root) =
        validateElementStructure t (validateRequiredElements t
          (rootTagCheck root (namespaceCheck root VR.init))) ∧
      (∀ (fp : String → Bool) (pm : String → String → Bool)
          (fr : List (String × FieldRule)),
        validateFieldFormats fp pm fr (Except.ok root) =
          VR.init.addError "No transport_order element found") ∧
      validateStopReferences (Except.ok root) =
        VR.init.addError "No transport_order element found" ∧
      (∀ (tr : String → Option TypeRules) (ty : String),
        validateTransportTypeRules tr (Except.ok root) ty =
          VR.init.addError "No transport_order element found") ∧
      (∀ (fi : String → Option Int),
        validateCrossFieldConsistency fi (Except.ok root) =
          VR.init.addError "No transport_order element found") ∧
      validateOceanCompleteness (Except.ok root) =
        VR.init.addError "No transport_order element found" := by
  have hloc : locateTransportOrder root = some t := by
    unfold locateTransportOrder
    rw [hns, hb]
    rfl
  refine ⟨hloc, ?_, ?_, ?_, ?_, ?_, ?_⟩
  · simp only [validateXmlStructure]
    rw [hloc]
  · intro fp pm fr
    simp only [validateFieldFormats]
    rw [hns]
  · simp only [validateStopReferences]
    rw [hns]
  · intro tr ty
    simp only [validateTransportTypeRules]
    rw [hns]
  · intro fi
    simp only [validateCrossFieldConsistency]
    rw [hns]
  · simp only [validateOceanCompleteness]
    rw [hns]

theorem C7_namespace_tolerant_lookup_witness :
    locateTransportOrder c7doc = some c7to ∧
      validateStopReferences (Except.ok c7doc) =
        VR.init.addError "No transport_order element found" ∧
      validateCrossFieldConsistency (fun _ => none) (Except.ok c7doc) =
        VR.init.addError "No transport_order element found" := by
  have h := C7_namespace_tolerant_lookup c7doc c7to
    (by simp [c7doc, c7to, Elem.findDesc, Elem.children, findDescL, nsTag, nsPre])
    (by simp [c7doc, c7to, Elem.findDesc, Elem.children, findDescL])
  exact ⟨h.1, h.2.2.2.1, h.2.2.2.2.2.1 (fun _ => none)⟩

theorem collectStopsGo_cons (s : UserStop) (rest : List UserStop) (i : Nat)
    (st : List CollectedStop) (h : collectStopsGo (s :: rest) i = .ok st) :
    ∃ loc per tail, processLocation (s.location.getD {}) = .ok loc ∧
      processDateTimePeriod (s.date_time_period.getD {}) = .ok per ∧
      collectStopsGo rest (i + 1) = .ok tail ∧
      st = { id := s.id.getD ("stop_" ++ toString (i + 1)),
             index := s.index.getD (Int.ofNat i),
             location := loc, date_time_period := per } :: tail := by
  unfold collectStopsGo at h
  split at h
  · exact absurd h (by simp)
  · rename_i loc hloc
    split at h
    · exact absurd h (by simp)
    · rename_i per hper
      split at h
      · exact absurd h (by simp)
      · rename_i tail htail
        injection h with h
        exact ⟨loc, per, tail, hloc, hper, htail, h.symm⟩

theorem collectStopsGo_nil (i : Nat) (st : List CollectedStop)
    (h : collectStopsGo [] i = .ok st) : st = [] := by
  unfold collectStopsGo at h
  injection h with h
  exact h.symm

theorem collectStopsGo_pair_ids (s1 s2 : UserStop) (st : List CollectedStop)
    (h : collectStopsGo [s1, s2] 0 = .ok st) :
    st.map CollectedStop.id = [s1.id.getD "stop_1", s2.id.getD "stop_2"] := by
  obtain ⟨loc1, per1, tail1, _, _, htail1, hst⟩ := collectStopsGo_cons s1 [s2] 0 st h
  obtain ⟨loc2, per2, tail2, _, _, htail2, htl⟩ := collectStopsGo_cons s2 [] 1 tail1 htail1
  have hnil := collectStopsGo_nil 2 tail2 htail2
  subst hnil
  subst htl
  subst hst
  rfl

theorem oceanModifyInput_stop_ids (input : OceanInput) :
    (oceanModifyInput input).loading_stop_ids = some ["Departure"] ∧
      (oceanModifyInput input).unloading_stop_ids = some ["Arrival"] :=
  ⟨rfl, rfl⟩

theorem oceanModifyInput_stops_pair (input : OceanInput) (s1 s2 : UserStop)
    (h : input.stops = some [s1, s2]) :
    (oceanModifyInput input).stops = some [s1, s2] := by
  cases hord : input.order_number with
  | none => simp [oceanModifyInput, hord, h]
  | some v => simp [oceanModifyInput, hord, h]

/-- C10: for every input and every transport-info collector, Ocean
Visibility parameter collection forces the collected order_details to
loading_stop_ids = ["Departure"] and unloading_stop_ids = ["Arrival"],
overwriting any user-supplied lists; when the user supplies two explicit
stops whose (defaulted) ids are neither "Departure" nor "Arrival", none of
the collected loading/unloading stop-id references resolves to any
collected stop id. -/
theorem C10_ocean_forced_stop_ids
    (collectTI : OceanInput → Except String (List (String × String)))
    (input : OceanInput) (c : Collected)
    (h : oceanCollectAllParameters collectTI input = .ok c) :
    c.order_details.loading_stop_ids = some ["Departure"] ∧
      c.order_details.unloading_stop_ids = some ["Arrival"] ∧
      ∀ s1 s2 : UserStop, input.stops = some [s1, s2] →
        c.stops.map CollectedStop.id = [s1.id.getD "stop_1", s2.id.getD "stop_2"] ∧
        (s1.id.getD "stop_1" ≠ "Departure" → s1.id.getD "stop_1" ≠ "Arrival" →
          s2.id.getD "stop_2" ≠ "Departure" → s2.id.getD "stop_2" ≠ "Arrival" →
          ∀ ref, ref ∈ (c.order_details.loading_stop_ids.getD [] ++
              c.order_details.unloading_stop_ids.getD []) →
            ref ∉ c.stops.map CollectedStop.id) := by
  unfold oceanCollectAllParameters baseCollectAllParameters at h
  split at h
  · exact absurd h (by simp)
  · split at h
    · exact absurd h (by simp)
    · rename_i st hst
      injection h with h
      subst h
      refine ⟨(oceanModifyInput_stop_ids input).1, (oceanModifyInput_stop_ids input).2, ?_⟩
      intro s1 s2 hs
      have hms : (oceanModifyInput input).stops = some [s1, s2] :=
        oceanModifyInput_stops_pair input s1 s2 hs
      unfold collectStops at hst
      rw [hms] at hst
      have hids := collectStopsGo_pair_ids s1 s2 st hst
      refine ⟨hids, ?_⟩
      intro hd1 ha1 hd2 ha2 ref href
      have href2 : ref = "Departure" ∨ ref = "Arrival" := by
        simp only [collectOrderDetailsOcean] at href
        rw [(oceanModifyInput_stop_ids input).1, (oceanModifyInput_stop_ids input).2] at href
        simpa using href
      intro hmem
      rw [hids] at hmem
      rcases List.mem_cons.mp hmem with hmem | hmem
      · rcases href2 with rfl | rfl
        · exact hd1 hmem.symm
        · exact ha1 hmem.symm
      · rcases List.mem_cons.mp hmem with hmem | hmem
        · rcases href2 with rfl | rfl
          · exact hd2 hmem.symm
          · exact ha2 hmem.symm
        · cases hmem

theorem C10_ocean_forced_stop_ids_witness :
    oceanCollectAllParameters (fun _ => .ok []) c10input = .ok c10collected ∧
      c10collected.order_details.loading_stop_ids = some ["Departure"] ∧
      c10collected.order_details.unloading_stop_ids = some ["Arrival"] ∧
      "Departure" ∉ c10collected.stops.map CollectedStop.id ∧
      "Arrival" ∉ c10collected.stops.map CollectedStop.id := by
  have hcol : oceanCollectAllParameters (fun _ => .ok []) c10input = .ok c10collected := rfl
  have h := C10_ocean_forced_stop_ids (fun _ => .ok []) c10input c10collected hcol
  obtain ⟨hmap, hres⟩ := h.2.2 c10s1 c10s2 rfl
  exact ⟨hcol, h.1, h.2.1,
    hres (by decide) (by decide) (by decide) (by decide) "Departure" (by decide),
    hres (by decide) (by decide) (by decide) (by decide) "Arrival" (by decide)⟩

theorem C9_carrier_creditor_mismatch_is_warning_witness :
    (validateCarrierCreditorConsistency c9to VR.init).errors = VR.init.errors ∧
      (validateCarrierCreditorConsistency c9to VR.init).is_valid = VR.init.is_valid ∧
      "Carrier creditor number inconsistency between transport and order levels" ∈
        (validateCarrierCreditorConsistency c9to VR.init).warnings :=
  C9_carrier_creditor_mismatch_is_warning c9to
    (.mk "carrier_creditor_number" [] (some "0000203512") [])
    (.mk "parameters" [] none [c9param]) c9param
    (.mk "value" [] (some "0000999999") []) VR.init "0000203512"
    rfl rfl (by decide) rfl (List.Mem.head _) rfl rfl (by decide)

end TransportOrder
